import Mathlib

/-!
# Datasource resources of `pkg/model/api/v1/datasource.go`

A shallow embedding of the datasource resource model: the spec value
`DatasourceSpec`, the two resource variants `GlobalDatasource` and
`Datasource` with their validation step and their four decode entry points,
and the generic selection function `FilterDatasource`.

Conventions of the embedding.

* Go strings are Lean strings (well-formed text, as the decoders produce it).
* A Go pointer that may be nil, and a Go `interface{}` value that may be nil,
  are `Option`s; `none` is nil.
* A Go slice is a `Slice`: the nil slice or an allocated sequence.
* A method with a pointer receiver that may write to the receiver takes the
  receiver's value and returns the receiver's value afterwards together with
  the returned error (`none` is the nil error).
* The types declared outside this file whose shape the code does not inspect
  (metadata, display, plugin configuration, foreign error values) are type
  parameters.
* The selection function is modelled twice. `FilterDatasource` runs on resource
  values, on which the methods of the capability interface are defined.
  `FilterDatasourceRun` runs on elements on which a method call returns or
  panics, as it does on a nil pointer; its result is a `Run`.
* The structural decoders (`json.Unmarshal`, the closure handed to
  `UnmarshalYAML`) are parameters: a decoder takes the temporary value and
  returns what it has written to it and its error.
-/

namespace Perses

/-! ## Data model -/

/-- Modelled from the spec: `common.Plugin` is declared outside this file. It
carries a kind tag (a string, read by `FilterDatasource`) and the
plugin-specific configuration, an `interface{}` value whose nil is `none`. -/
structure Plugin (σ : Type) where
  Kind : String
  Spec : Option σ
deriving DecidableEq, Repr

/-- The spec value of a datasource (source lines 42-48). `Display` is a pointer,
`none` when nil. -/
structure DatasourceSpec (δ σ : Type) where
  Display : Option δ
  Default : Bool
  Plugin : Plugin σ
deriving DecidableEq, Repr

/-- The composite literal `DatasourceSpec{}`: every field at its zero value. -/
def DatasourceSpec.zero {δ σ : Type} : DatasourceSpec δ σ :=
  { Display := none, Default := false, Plugin := { Kind := "", Spec := none } }

/-- The capability interface `DatasourceInterface` (source lines 37-40): any
type offering its metadata and its spec value. An instance gives the methods on
resource values, where they return; a call on an element that may be a nil
pointer is the business of `DatasourceCalls`. -/
class DatasourceInterface (T : Type) (M δ σ : outParam Type) where
  GetMetadata : T → M
  GetDTSSpec : T → DatasourceSpec δ σ

/-- The string type `Kind`, declared outside this file as a named string type. -/
abbrev Kind := String

/-- Modelled from the spec: the constant `KindDatasource` is declared outside
this file; the spec gives its literal as "Datasource". -/
def KindDatasource : Kind := "Datasource"

/-- Modelled from the spec: the constant `KindGlobalDatasource` is declared
outside this file; the spec gives its literal as "GlobalDatasource". -/
def KindGlobalDatasource : Kind := "GlobalDatasource"

/-- The resource shared by every project (source lines 52-56). `M` is the
metadata type `Metadata`. -/
structure GlobalDatasource (M δ σ : Type) where
  Kind : Kind
  Metadata : M
  Spec : DatasourceSpec δ σ
deriving DecidableEq, Repr

/-- The project-scoped resource (source lines 113-117). `P` is the metadata type
`ProjectMetadata`. -/
structure Datasource (P δ σ : Type) where
  Kind : Kind
  Metadata : P
  Spec : DatasourceSpec δ σ
deriving DecidableEq, Repr

/-- The declaration `var tmp GlobalDatasource`: every field at its zero value;
the zero value of the metadata type is its `default`. -/
def GlobalDatasource.zero {M δ σ : Type} [Inhabited M] : GlobalDatasource M δ σ :=
  { Kind := "", Metadata := default, Spec := DatasourceSpec.zero }

/-- The declaration `var tmp Datasource`: every field at its zero value. -/
def Datasource.zero {P δ σ : Type} [Inhabited P] : Datasource P δ σ :=
  { Kind := "", Metadata := default, Spec := DatasourceSpec.zero }

/-! ## Errors and `%q` -/

/-- A Go `error` value: one built by `fmt.Errorf`, which is its message, or an
error value of any other origin (the structural decoders return these). -/
inductive GoError (ε : Type) where
  | errorf (msg : String) : GoError ε
  | foreign (e : ε) : GoError ε
deriving DecidableEq, Repr

/-- The double quote character. -/
def dquote : Char := Char.ofNat 34

/-- The backslash character. -/
def backslash : Char := Char.ofNat 92

/-- The digit table `lowerhex` of `strconv`, indexed by a value below 16. -/
def lowerhex (n : Nat) : Char := "0123456789abcdef".toList.getD (n % 16) (Char.ofNat 48)

/-- The function `strconv.IsPrint`: its Latin-1 fast path is fixed code; above
`0xFF` it searches tables that are not part of this repository, taken as the
parameter `tbl`. -/
def IsPrint (tbl : Nat → Bool) (r : Nat) : Bool :=
  if r ≤ 0xFF then
    if 0x20 ≤ r ∧ r ≤ 0x7E then true
    else if 0xA1 ≤ r ∧ r ≤ 0xFF then r != 0xAD
    else false
  else tbl r

/-- The function `strconv.appendEscapedRune` as `%q` calls it (quote character
the double quote, neither ASCII-only nor graphic-only). A Lean character is
always a valid rune, so the branch for invalid runes does not arise. -/
def appendEscapedRune (tbl : Nat → Bool) (buf : List Char) (r : Char) : List Char :=
  if r = dquote ∨ r = backslash then buf ++ [backslash, r]
  else if IsPrint tbl r.toNat then buf ++ [r]
  else if r.toNat = 7 then buf ++ [backslash, Char.ofNat 97]
  else if r.toNat = 8 then buf ++ [backslash, Char.ofNat 98]
  else if r.toNat = 12 then buf ++ [backslash, Char.ofNat 102]
  else if r.toNat = 10 then buf ++ [backslash, Char.ofNat 110]
  else if r.toNat = 13 then buf ++ [backslash, Char.ofNat 114]
  else if r.toNat = 9 then buf ++ [backslash, Char.ofNat 116]
  else if r.toNat = 11 then buf ++ [backslash, Char.ofNat 118]
  else if r.toNat < 0x20 ∨ r.toNat = 0x7f then
    buf ++ [backslash, Char.ofNat 120, lowerhex (r.toNat >>> 4), lowerhex (r.toNat &&& 0xF)]
  else if r.toNat < 0x10000 then
    buf ++ [backslash, Char.ofNat 117, lowerhex (r.toNat >>> 12 &&& 0xF),
      lowerhex (r.toNat >>> 8 &&& 0xF), lowerhex (r.toNat >>> 4 &&& 0xF),
      lowerhex (r.toNat &&& 0xF)]
  else
    buf ++ [backslash, Char.ofNat 85, lowerhex (r.toNat >>> 28 &&& 0xF),
      lowerhex (r.toNat >>> 24 &&& 0xF), lowerhex (r.toNat >>> 20 &&& 0xF),
      lowerhex (r.toNat >>> 16 &&& 0xF), lowerhex (r.toNat >>> 12 &&& 0xF),
      lowerhex (r.toNat >>> 8 &&& 0xF), lowerhex (r.toNat >>> 4 &&& 0xF),
      lowerhex (r.toNat &&& 0xF)]

/-- The function `strconv.Quote`, which the verb `%q` applies to a string: an
opening quote, every rune through `appendEscapedRune`, a closing quote. -/
def Quote (tbl : Nat → Bool) (s : String) : String :=
  String.mk (s.toList.foldl (appendEscapedRune tbl) [dquote] ++ [dquote])

/-! ## Validation -/

/-- The method `GlobalDatasource.validate` (source lines 84-92).
`reflect.DeepEqual` against the zero spec holds exactly when the display pointer
is nil, the default flag is false, the plugin kind is empty and the plugin
configuration is nil, which is equality with `DatasourceSpec.zero`. The call
`fmt.Errorf` with the verb `%q` on the kind, a value of a string type, inserts
`Quote` of the kind; without a verb the message is the format string. -/
def GlobalDatasource.validate {M δ σ : Type} [DecidableEq δ] [DecidableEq σ] (ε : Type)
    (tbl : Nat → Bool) (d : GlobalDatasource M δ σ) : Option (GoError ε) :=
  if d.Kind ≠ KindGlobalDatasource then
    some (.errorf ("invalid kind: " ++ Quote tbl d.Kind ++ " for a GlobalDatasource type"))
  else if d.Spec = DatasourceSpec.zero then
    some (.errorf "spec cannot be empty")
  else none

/-- The method `Datasource.validate` (source lines 145-153). -/
def Datasource.validate {P δ σ : Type} [DecidableEq δ] [DecidableEq σ] (ε : Type)
    (tbl : Nat → Bool) (d : Datasource P δ σ) : Option (GoError ε) :=
  if d.Kind ≠ KindDatasource then
    some (.errorf ("invalid kind: " ++ Quote tbl d.Kind ++ " for a Datasource type"))
  else if d.Spec = DatasourceSpec.zero then
    some (.errorf "spec cannot be empty")
  else none

/-! ## Accessors -/

/-- The method `GlobalDatasource.GetDTSSpec` (source lines 102-104). -/
def GlobalDatasource.GetDTSSpec {M δ σ : Type} (d : GlobalDatasource M δ σ) :
    DatasourceSpec δ σ := d.Spec

/-- The method `Datasource.GetDTSSpec` (source lines 163-165). -/
def Datasource.GetDTSSpec {P δ σ : Type} (d : Datasource P δ σ) : DatasourceSpec δ σ := d.Spec

/-- The method `GlobalDatasource.GetMetadata` (source lines 94-96). -/
def GlobalDatasource.GetMetadata {M δ σ : Type} (d : GlobalDatasource M δ σ) : M := d.Metadata

/-- The method `Datasource.GetMetadata` (source lines 155-157). -/
def Datasource.GetMetadata {P δ σ : Type} (d : Datasource P δ σ) : P := d.Metadata

instance {M δ σ : Type} : DatasourceInterface (GlobalDatasource M δ σ) M δ σ where
  GetMetadata := GlobalDatasource.GetMetadata
  GetDTSSpec := GlobalDatasource.GetDTSSpec

instance {P δ σ : Type} : DatasourceInterface (Datasource P δ σ) P δ σ where
  GetMetadata := Datasource.GetMetadata
  GetDTSSpec := Datasource.GetDTSSpec

/-- The method `GlobalDatasource.GetKind` (source lines 98-100): the conversion
`string(d.Kind)` of a value of a string type. -/
def GlobalDatasource.GetKind {M δ σ : Type} (d : GlobalDatasource M δ σ) : String := d.Kind

/-- The method `Datasource.GetKind` (source lines 159-161). -/
def Datasource.GetKind {P δ σ : Type} (d : Datasource P δ σ) : String := d.Kind

/-- A call of `GlobalDatasource.validate` with the receiver made explicit: the
value behind the receiver pointer after the call, and the returned error. The
body of the method (source lines 84-92) reads `d.Kind` and `d.Spec` and holds
no assignment, so the value behind the pointer is the one before the call. -/
def GlobalDatasource.validateCall {M δ σ : Type} [DecidableEq δ] [DecidableEq σ] (ε : Type)
    (tbl : Nat → Bool) (d : GlobalDatasource M δ σ) :
    GlobalDatasource M δ σ × Option (GoError ε) :=
  (d, d.validate ε tbl)

/-- A call of `Datasource.validate` with the receiver made explicit (source
lines 145-153). -/
def Datasource.validateCall {P δ σ : Type} [DecidableEq δ] [DecidableEq σ] (ε : Type)
    (tbl : Nat → Bool) (d : Datasource P δ σ) : Datasource P δ σ × Option (GoError ε) :=
  (d, d.validate ε tbl)

/-! ## Runs that may panic -/

/-- The outcome of running Go code that may panic: it returns a value or it
panics. -/
inductive Run (α : Type) where
  | ok (a : α) : Run α
  | panicked : Run α
deriving DecidableEq, Repr

/-- The outcome of a run followed by a function that cannot panic. -/
def Run.map {α β : Type} (f : α → β) : Run α → Run β
  | .ok a => .ok (f a)
  | .panicked => .panicked

/-! ## Callers of `GetDTSSpec` -/

/-- The state of a caller around the statement `c := d.GetDTSSpec()`: the display
cells that display pointers address (`displays a` is the display stored at the
address `a`), the resource behind the pointer `d`, and the caller's variable
`c`. In this state the display field of a spec holds the address of a cell. The
method returns the struct by value: `c` has storage of its own for its three
fields, and its display field addresses the same cell as the display field of
the resource. -/
structure Frame (R D σ : Type) where
  displays : Nat → D
  stored : R
  c : DatasourceSpec Nat σ

/-- The statement `c := d.GetDTSSpec()` on a global datasource. -/
def GlobalDatasource.callGetDTSSpec {M D σ : Type} (displays : Nat → D)
    (d : GlobalDatasource M Nat σ) : Frame (GlobalDatasource M Nat σ) D σ :=
  { displays := displays, stored := d, c := d.GetDTSSpec }

/-- The statement `c := d.GetDTSSpec()` on a project datasource. -/
def Datasource.callGetDTSSpec {P D σ : Type} (displays : Nat → D)
    (d : Datasource P Nat σ) : Frame (Datasource P Nat σ) D σ :=
  { displays := displays, stored := d, c := d.GetDTSSpec }

/-- The statement `c.Display = x`: the display field of the copy gets another
pointer. -/
def Frame.assignDisplay {R D σ : Type} (x : Option Nat) (fr : Frame R D σ) : Frame R D σ :=
  { fr with c := { fr.c with Display := x } }

/-- The statement `c.Default = b`. -/
def Frame.assignDefault {R D σ : Type} (b : Bool) (fr : Frame R D σ) : Frame R D σ :=
  { fr with c := { fr.c with Default := b } }

/-- The statement `c.Plugin = p`. -/
def Frame.assignPlugin {R D σ : Type} (p : Plugin σ) (fr : Frame R D σ) : Frame R D σ :=
  { fr with c := { fr.c with Plugin := p } }

/-- The statement `*c.Display = v`, a write through the display pointer of the
copy (a write to one field of the display is such a write): it panics on the nil
pointer and otherwise replaces the cell the pointer addresses. -/
def Frame.writeDisplay {R D σ : Type} (v : D) (fr : Frame R D σ) : Run (Frame R D σ) :=
  match fr.c.Display with
  | none => .panicked
  | some a => .ok { fr with displays := fun b => if b = a then v else fr.displays b }

/-- The display of the stored resource as a reader finds it through
`d.Spec.Display`: nothing for the nil pointer, else the cell addressed. -/
def Frame.storedDisplay {R M D σ : Type} [DatasourceInterface R M Nat σ]
    (fr : Frame R D σ) : Option D :=
  (DatasourceInterface.GetDTSSpec fr.stored).Display.map fr.displays

/-! ## Decode entry points -/

/-- The input of `json.Unmarshal`: a sequence of bytes. -/
abbrev Bytes := List Nat

/-- The method `GlobalDatasource.UnmarshalJSON` (source lines 58-69).
`jsonUnmarshal data tmp` is the call `json.Unmarshal(data, (*plain)(&tmp))`: it
returns what it has written to `tmp` and its error. The result is the receiver
afterwards and the returned error. -/
def GlobalDatasource.UnmarshalJSON {M δ σ ε : Type} [Inhabited M] [DecidableEq δ] [DecidableEq σ]
    (tbl : Nat → Bool)
    (jsonUnmarshal : Bytes → GlobalDatasource M δ σ → GlobalDatasource M δ σ × Option (GoError ε))
    (d : GlobalDatasource M δ σ) (data : Bytes) :
    GlobalDatasource M δ σ × Option (GoError ε) :=
  match jsonUnmarshal data GlobalDatasource.zero with
  | (_, some err) => (d, some err)
  | (tmp, none) =>
    match tmp.validate ε tbl with
    | some err => (d, some err)
    | none => (tmp, none)

/-- The method `GlobalDatasource.UnmarshalYAML` (source lines 71-82).
`unmarshal tmp` is the call of the decoding closure on `(*plain)(&tmp)`. -/
def GlobalDatasource.UnmarshalYAML {M δ σ ε : Type} [Inhabited M] [DecidableEq δ] [DecidableEq σ]
    (tbl : Nat → Bool) (d : GlobalDatasource M δ σ)
    (unmarshal : GlobalDatasource M δ σ → GlobalDatasource M δ σ × Option (GoError ε)) :
    GlobalDatasource M δ σ × Option (GoError ε) :=
  match unmarshal GlobalDatasource.zero with
  | (_, some err) => (d, some err)
  | (tmp, none) =>
    match tmp.validate ε tbl with
    | some err => (d, some err)
    | none => (tmp, none)

/-- The method `Datasource.UnmarshalJSON` (source lines 119-130). -/
def Datasource.UnmarshalJSON {P δ σ ε : Type} [Inhabited P] [DecidableEq δ] [DecidableEq σ]
    (tbl : Nat → Bool)
    (jsonUnmarshal : Bytes → Datasource P δ σ → Datasource P δ σ × Option (GoError ε))
    (d : Datasource P δ σ) (data : Bytes) : Datasource P δ σ × Option (GoError ε) :=
  match jsonUnmarshal data Datasource.zero with
  | (_, some err) => (d, some err)
  | (tmp, none) =>
    match tmp.validate ε tbl with
    | some err => (d, some err)
    | none => (tmp, none)

/-- The method `Datasource.UnmarshalYAML` (source lines 132-143). -/
def Datasource.UnmarshalYAML {P δ σ ε : Type} [Inhabited P] [DecidableEq δ] [DecidableEq σ]
    (tbl : Nat → Bool) (d : Datasource P δ σ)
    (unmarshal : Datasource P δ σ → Datasource P δ σ × Option (GoError ε)) :
    Datasource P δ σ × Option (GoError ε) :=
  match unmarshal Datasource.zero with
  | (_, some err) => (d, some err)
  | (tmp, none) =>
    match tmp.validate ε tbl with
    | some err => (d, some err)
    | none => (tmp, none)

/-! ## Slices -/

/-- A Go slice value: the nil slice, or an allocated slice with its elements in
order (capacity is not observable by the code modelled here). -/
inductive Slice (α : Type) where
  | null : Slice α
  | alloc (elems : List α) : Slice α
deriving DecidableEq, Repr

namespace Slice

/-- The elements a `range` loop visits: none for the nil slice. -/
def toList {α : Type} : Slice α → List α
  | null => []
  | alloc l => l

/-- The builtin `len`. -/
def len {α : Type} (s : Slice α) : Nat := s.toList.length

/-- The call `make([]T, 0, n)`: an allocated slice of length zero. -/
def make {α : Type} (_cap : Nat) : Slice α := alloc []

/-- The builtin `append(s, x)`: appending to the nil slice allocates. -/
def append {α : Type} (s : Slice α) (x : α) : Slice α := alloc (s.toList ++ [x])

/-- Whether the slice is the nil slice. -/
def isNull {α : Type} : Slice α → Bool
  | null => true
  | alloc _ => false

end Slice

/-! ## The selection function -/

/-- The condition of the `if` in the loop body of `FilterDatasource` (source
lines 28-29): true when the element is skipped. `len(kind)` is the length in
bytes and `defaultDTS` is a pointer to a boolean. -/
def skips {T M δ σ : Type} [DatasourceInterface T M δ σ]
    (kind : String) (defaultDTS : Option Bool) (d : T) : Bool :=
  (decide (kind.utf8ByteSize > 0) &&
      decide (kind ≠ (DatasourceInterface.GetDTSSpec d).Plugin.Kind)) ||
    (match defaultDTS with
     | none => false
     | some b => decide (b ≠ (DatasourceInterface.GetDTSSpec d).Default))

/-- The function `FilterDatasource` (source lines 25-35): the result starts as
`make([]T, 0, len(list))` and the loop appends every element that is not
skipped. -/
def FilterDatasource {T M δ σ : Type} [DatasourceInterface T M δ σ]
    (kind : String) (defaultDTS : Option Bool) (list : Slice T) : Slice T :=
  list.toList.foldl
    (fun result d => if skips kind defaultDTS d then result else result.append d)
    (Slice.make list.len)

/-- The reference predicate of the selection contract: the kind filter is empty
or equals the element's plugin kind, and the default filter is absent or equals
the element's default flag. -/
def keeps {T M δ σ : Type} [DatasourceInterface T M δ σ]
    (kind : String) (defaultDTS : Option Bool) (d : T) : Bool :=
  (decide (kind = "") || decide ((DatasourceInterface.GetDTSSpec d).Plugin.Kind = kind)) &&
    (match defaultDTS with
     | none => true
     | some f => decide ((DatasourceInterface.GetDTSSpec d).Default = f))

/-! ## The selection function on elements that may be nil -/

/-- The capability interface as a call site sees it: the call `d.GetDTSSpec()`
on an element returns a spec or panics. -/
class DatasourceCalls (T : Type) (δ σ : outParam Type) where
  runGetDTSSpec : T → Run (DatasourceSpec δ σ)

/-- The call `d.GetDTSSpec()` on a `*Datasource`: the body `return d.Spec`
(source line 164) dereferences the receiver and panics when it is nil. -/
instance {P δ σ : Type} : DatasourceCalls (Option (Datasource P δ σ)) δ σ where
  runGetDTSSpec
    | none => .panicked
    | some d => .ok d.GetDTSSpec

/-- The call `d.GetDTSSpec()` on a `*GlobalDatasource` (source line 103). -/
instance {M δ σ : Type} : DatasourceCalls (Option (GlobalDatasource M δ σ)) δ σ where
  runGetDTSSpec
    | none => .panicked
    | some d => .ok d.GetDTSSpec

/-- The condition of the `if` in the loop body (source lines 28-29) in the order
Go evaluates it: the right operand of `&&` only when the left is true, the
right operand of `||` only when the left is false; each call of `GetDTSSpec`
may panic. -/
def skipsRun {T δ σ : Type} [DatasourceCalls T δ σ]
    (kind : String) (defaultDTS : Option Bool) (d : T) : Run Bool :=
  match (if kind.utf8ByteSize > 0 then
      (DatasourceCalls.runGetDTSSpec d).map (fun sp => decide (kind ≠ sp.Plugin.Kind))
    else .ok false) with
  | .panicked => .panicked
  | .ok true => .ok true
  | .ok false =>
    match defaultDTS with
    | none => .ok false
    | some b => (DatasourceCalls.runGetDTSSpec d).map (fun sp => decide (b ≠ sp.Default))

/-- The loop of `FilterDatasource` (source lines 27-33) over the remaining
elements, from the current `result`; a panic in the condition ends the run. -/
def filterLoopRun {T δ σ : Type} [DatasourceCalls T δ σ]
    (kind : String) (defaultDTS : Option Bool) : List T → Slice T → Run (Slice T)
  | [], result => .ok result
  | d :: rest, result =>
    match skipsRun kind defaultDTS d with
    | .panicked => .panicked
    | .ok true => filterLoopRun kind defaultDTS rest result
    | .ok false => filterLoopRun kind defaultDTS rest (result.append d)

/-- The function `FilterDatasource` (source lines 25-35) on elements on which
`GetDTSSpec` may panic. -/
def FilterDatasourceRun {T δ σ : Type} [DatasourceCalls T δ σ]
    (kind : String) (defaultDTS : Option Bool) (list : Slice T) : Run (Slice T) :=
  filterLoopRun kind defaultDTS list.toList (Slice.make list.len)

/-- Whether the condition of the loop runs to false on an element, so that the
element is appended. -/
def keepsRun {T δ σ : Type} [DatasourceCalls T δ σ]
    (kind : String) (defaultDTS : Option Bool) (d : T) : Bool :=
  match skipsRun kind defaultDTS d with
  | .ok false => true
  | _ => false

/-- Whether every character of a string is printable and is neither the double
quote nor the backslash, so that `%q` leaves it as it is. -/
def plainText (tbl : Nat → Bool) (s : String) : Bool :=
  s.toList.all (fun c => decide (c ≠ dquote) && decide (c ≠ backslash) && IsPrint tbl c.toNat)

/-! ## Values a JSON decode stores -/

/-- A table for `strconv.IsPrint` above `0xFF` that accepts nothing. -/
def noTable : Nat → Bool := fun _ => false

/-- A non-empty spec: a default Prometheus datasource with a configuration. -/
def promSpec : DatasourceSpec String String :=
  { Display := none, Default := true, Plugin := { Kind := "prometheus", Spec := some "cfg" } }

/-- A non-default Loki spec with a display. -/
def lokiSpec : DatasourceSpec String String :=
  { Display := some "logs", Default := false, Plugin := { Kind := "loki", Spec := some "cfg" } }

/-- A valid project datasource. -/
def promDatasource : Datasource Nat String String :=
  { Kind := "Datasource", Metadata := 1, Spec := promSpec }

/-- A second valid project datasource. -/
def lokiDatasource : Datasource Nat String String :=
  { Kind := "Datasource", Metadata := 2, Spec := lokiSpec }

/-- A valid global datasource. -/
def promGlobal : GlobalDatasource Nat String String :=
  { Kind := "GlobalDatasource", Metadata := 3, Spec := promSpec }

/-- A receiver value present before a decode. -/
def priorDatasource : Datasource Nat String String :=
  { Kind := "Datasource", Metadata := 7, Spec := lokiSpec }

/-- A global receiver value present before a decode. -/
def priorGlobal : GlobalDatasource Nat String String :=
  { Kind := "GlobalDatasource", Metadata := 8, Spec := lokiSpec }

/-- A structural decoder that writes the given value and succeeds. -/
def yields {R : Type} (t : R) : R → R × Option (GoError String) := fun _ => (t, none)

/-- A structural decoder that writes the given value and fails with the given
error. -/
def failsWith {R : Type} (t : R) (e : GoError String) : R → R × Option (GoError String) :=
  fun _ => (t, some e)

/-- The structural decode step matching `toyMarshal`: it fails on a document it
does not know. -/
def toyUnmarshal (data : Bytes) :
    Datasource Nat String String → Datasource Nat String String × Option (GoError String) :=
  if data = [1] then yields promDatasource
  else if data = [2] then yields lokiDatasource
  else failsWith Datasource.zero (.foreign "unexpected end of JSON input")

/-- The structural decode step matching `toyMarshalGlobal`. -/
def toyUnmarshalGlobal (data : Bytes) :
    GlobalDatasource Nat String String →
      GlobalDatasource Nat String String × Option (GoError String) :=
  if data = [1] then yields promGlobal
  else failsWith GlobalDatasource.zero (.foreign "unexpected end of JSON input")

/-- A spec whose only non-zero field is the default flag: no display and the
zero plugin. -/
def defaultOnlySpec : DatasourceSpec String String :=
  { Display := none, Default := true, Plugin := { Kind := "", Spec := none } }

/-- A spec whose only non-zero field is the display: default false and the zero
plugin. -/
def displayOnlySpec : DatasourceSpec String String :=
  { Display := some "logs", Default := false, Plugin := { Kind := "", Spec := none } }

/-- A list of project datasources mixing kinds and default flags. -/
def mixedList : Slice (Datasource Nat String String) :=
  Slice.alloc [promDatasource, lokiDatasource,
    { Kind := "Datasource", Metadata := 4,
      Spec := { Display := none, Default := false,
                Plugin := { Kind := "prometheus", Spec := none } } },
    { Kind := "Datasource", Metadata := 5,
      Spec := { Display := none, Default := true, Plugin := { Kind := "loki", Spec := none } } }]

/-- Display cells: the cell at address 0 holds a display, the others are blank. -/
def sampleDisplays : Nat → String := fun a => if a = 0 then "logs" else ""

/-- A project datasource whose display pointer addresses the cell 0. -/
def pointerDatasource : Datasource Nat Nat String :=
  { Kind := "Datasource", Metadata := 1,
    Spec := { Display := some 0, Default := false,
              Plugin := { Kind := "loki", Spec := some "cfg" } } }

/-- A global datasource whose display pointer addresses the cell 0. -/
def pointerGlobal : GlobalDatasource Nat Nat String :=
  { Kind := "GlobalDatasource", Metadata := 3,
    Spec := { Display := some 0, Default := true,
              Plugin := { Kind := "prometheus", Spec := some "cfg" } } }

/-- A string has byte length zero exactly when it is the empty string. -/
theorem utf8ByteSize_pos_iff (s : String) : s.utf8ByteSize > 0 ↔ s ≠ "" := by
  rcases s with ⟨l⟩
  cases l with
  | nil => simp [String.utf8ByteSize, String.utf8ByteSize.go]
  | cons c cs =>
    have hc : 0 < c.utf8Size := Char.utf8Size_pos c
    have hne : (⟨c :: cs⟩ : String) ≠ "" := by
      intro h
      have := congrArg String.data h
      simp at this
    simp only [String.utf8ByteSize, String.utf8ByteSize.go, gt_iff_lt, ne_eq, hne,
      not_false_eq_true, iff_true]
    omega

/-- The loop condition skips an element exactly when the reference predicate
rejects it. -/
theorem skips_eq_not_keeps {T M δ σ : Type} [DatasourceInterface T M δ σ]
    (kind : String) (defaultDTS : Option Bool) (d : T) :
    skips kind defaultDTS d = !keeps kind defaultDTS d := by
  unfold skips keeps
  by_cases hk : kind = ""
  · subst hk
    cases defaultDTS with
    | none => simp [String.utf8ByteSize, String.utf8ByteSize.go]
    | some b =>
      cases b <;> cases (DatasourceInterface.GetDTSSpec d).Default <;>
        simp [String.utf8ByteSize, String.utf8ByteSize.go]
  · have hpos : kind.utf8ByteSize > 0 := (utf8ByteSize_pos_iff kind).2 hk
    by_cases he : kind = (DatasourceInterface.GetDTSSpec d).Plugin.Kind
    · have he2 : (DatasourceInterface.GetDTSSpec d).Plugin.Kind = kind := he.symm
      cases defaultDTS with
      | none => simp [hpos, hk, he2]
      | some b =>
        cases b <;> cases (DatasourceInterface.GetDTSSpec d).Default <;> simp [hpos, hk, he2]
    · have he2 : ¬ (DatasourceInterface.GetDTSSpec d).Plugin.Kind = kind := fun h => he h.symm
      cases defaultDTS with
      | none => simp [hpos, hk, he, he2]
      | some b => simp [hpos, hk, he, he2]

/-- The loop of `FilterDatasource` from any allocated accumulator: the
accumulator followed by the kept elements. -/
theorem filterLoop_eq {T M δ σ : Type} [DatasourceInterface T M δ σ]
    (kind : String) (defaultDTS : Option Bool) (xs acc : List T) :
    xs.foldl (fun result d => if skips kind defaultDTS d then result else result.append d)
        (Slice.alloc acc)
      = Slice.alloc (acc ++ xs.filter (keeps kind defaultDTS)) := by
  induction xs generalizing acc with
  | nil => simp
  | cons x xs ih =>
    have hs := skips_eq_not_keeps kind defaultDTS x
    rw [List.foldl_cons]
    cases hx : keeps kind defaultDTS x
    · rw [hx] at hs
      have hstep : (if skips kind defaultDTS x = true then Slice.alloc acc
          else (Slice.alloc acc).append x) = Slice.alloc acc := by simp [hs]
      rw [hstep, ih]
      simp [List.filter_cons, hx]
    · rw [hx] at hs
      have hstep : (if skips kind defaultDTS x = true then Slice.alloc acc
          else (Slice.alloc acc).append x) = Slice.alloc (acc ++ [x]) := by
        simp [hs, Slice.append, Slice.toList]
      rw [hstep, ih]
      simp [List.filter_cons, hx]

/-- The result of `FilterDatasource` is an allocated slice holding the kept
elements in their order. -/
theorem FilterDatasource_alloc {T M δ σ : Type} [DatasourceInterface T M δ σ]
    (kind : String) (defaultDTS : Option Bool) (list : Slice T) :
    FilterDatasource kind defaultDTS list
      = Slice.alloc (list.toList.filter (keeps kind defaultDTS)) := by
  unfold FilterDatasource Slice.make
  rw [filterLoop_eq]
  simp

/-! ## Lemmas on validation and the decode entry points -/

/-- The method `GlobalDatasource.validate` accepts exactly the values with the
fixed kind and a spec other than the zero spec. -/
theorem GlobalDatasource_validate_eq_none {M δ σ ε : Type} [DecidableEq δ] [DecidableEq σ]
    (tbl : Nat → Bool) (g : GlobalDatasource M δ σ) :
    g.validate ε tbl = none ↔ g.Kind = "GlobalDatasource" ∧ g.Spec ≠ DatasourceSpec.zero := by
  unfold GlobalDatasource.validate KindGlobalDatasource
  by_cases hk : g.Kind = "GlobalDatasource"
  · by_cases hs : g.Spec = DatasourceSpec.zero <;> simp [hk, hs]
  · simp [hk]

/-- The method `Datasource.validate` accepts exactly the values with the fixed
kind and a spec other than the zero spec. -/
theorem Datasource_validate_eq_none {P δ σ ε : Type} [DecidableEq δ] [DecidableEq σ]
    (tbl : Nat → Bool) (d : Datasource P δ σ) :
    d.validate ε tbl = none ↔ d.Kind = "Datasource" ∧ d.Spec ≠ DatasourceSpec.zero := by
  unfold Datasource.validate KindDatasource
  by_cases hk : d.Kind = "Datasource"
  · by_cases hs : d.Spec = DatasourceSpec.zero <;> simp [hk, hs]
  · simp [hk]

/-- The entry point `GlobalDatasource.UnmarshalJSON` when the structural decode
fails. -/
theorem GlobalDatasource_UnmarshalJSON_decode_err {M δ σ ε : Type} [Inhabited M]
    [DecidableEq δ] [DecidableEq σ] (tbl : Nat → Bool)
    (ju : Bytes → GlobalDatasource M δ σ → GlobalDatasource M δ σ × Option (GoError ε))
    (d t : GlobalDatasource M δ σ) (data : Bytes) (e : GoError ε)
    (h : ju data GlobalDatasource.zero = (t, some e)) :
    GlobalDatasource.UnmarshalJSON tbl ju d data = (d, some e) := by
  simp [GlobalDatasource.UnmarshalJSON, h]

/-- The entry point `GlobalDatasource.UnmarshalJSON` when the structural decode
succeeds: the validation of the temporary value decides. -/
theorem GlobalDatasource_UnmarshalJSON_decode_ok {M δ σ ε : Type} [Inhabited M]
    [DecidableEq δ] [DecidableEq σ] (tbl : Nat → Bool)
    (ju : Bytes → GlobalDatasource M δ σ → GlobalDatasource M δ σ × Option (GoError ε))
    (d t : GlobalDatasource M δ σ) (data : Bytes)
    (h : ju data GlobalDatasource.zero = (t, none)) :
    GlobalDatasource.UnmarshalJSON tbl ju d data =
      match t.validate ε tbl with
      | some err => (d, some err)
      | none => (t, none) := by
  simp [GlobalDatasource.UnmarshalJSON, h]

/-- The entry point `GlobalDatasource.UnmarshalYAML` when the structural decode
fails. -/
theorem GlobalDatasource_UnmarshalYAML_decode_err {M δ σ ε : Type} [Inhabited M]
    [DecidableEq δ] [DecidableEq σ] (tbl : Nat → Bool)
    (um : GlobalDatasource M δ σ → GlobalDatasource M δ σ × Option (GoError ε))
    (d t : GlobalDatasource M δ σ) (e : GoError ε)
    (h : um GlobalDatasource.zero = (t, some e)) :
    GlobalDatasource.UnmarshalYAML tbl d um = (d, some e) := by
  simp [GlobalDatasource.UnmarshalYAML, h]

/-- The entry point `GlobalDatasource.UnmarshalYAML` when the structural decode
succeeds. -/
theorem GlobalDatasource_UnmarshalYAML_decode_ok {M δ σ ε : Type} [Inhabited M]
    [DecidableEq δ] [DecidableEq σ] (tbl : Nat → Bool)
    (um : GlobalDatasource M δ σ → GlobalDatasource M δ σ × Option (GoError ε))
    (d t : GlobalDatasource M δ σ)
    (h : um GlobalDatasource.zero = (t, none)) :
    GlobalDatasource.UnmarshalYAML tbl d um =
      match t.validate ε tbl with
      | some err => (d, some err)
      | none => (t, none) := by
  simp [GlobalDatasource.UnmarshalYAML, h]

/-- The entry point `Datasource.UnmarshalJSON` when the structural decode
fails. -/
theorem Datasource_UnmarshalJSON_decode_err {P δ σ ε : Type} [Inhabited P]
    [DecidableEq δ] [DecidableEq σ] (tbl : Nat → Bool)
    (ju : Bytes → Datasource P δ σ → Datasource P δ σ × Option (GoError ε))
    (d t : Datasource P δ σ) (data : Bytes) (e : GoError ε)
    (h : ju data Datasource.zero = (t, some e)) :
    Datasource.UnmarshalJSON tbl ju d data = (d, some e) := by
  simp [Datasource.UnmarshalJSON, h]

/-- The entry point `Datasource.UnmarshalJSON` when the structural decode
succeeds. -/
theorem Datasource_UnmarshalJSON_decode_ok {P δ σ ε : Type} [Inhabited P]
    [DecidableEq δ] [DecidableEq σ] (tbl : Nat → Bool)
    (ju : Bytes → Datasource P δ σ → Datasource P δ σ × Option (GoError ε))
    (d t : Datasource P δ σ) (data : Bytes)
    (h : ju data Datasource.zero = (t, none)) :
    Datasource.UnmarshalJSON tbl ju d data =
      match t.validate ε tbl with
      | some err => (d, some err)
      | none => (t, none) := by
  simp [Datasource.UnmarshalJSON, h]

/-- The entry point `Datasource.UnmarshalYAML` when the structural decode
fails. -/
theorem Datasource_UnmarshalYAML_decode_err {P δ σ ε : Type} [Inhabited P]
    [DecidableEq δ] [DecidableEq σ] (tbl : Nat → Bool)
    (um : Datasource P δ σ → Datasource P δ σ × Option (GoError ε))
    (d t : Datasource P δ σ) (e : GoError ε)
    (h : um Datasource.zero = (t, some e)) :
    Datasource.UnmarshalYAML tbl d um = (d, some e) := by
  simp [Datasource.UnmarshalYAML, h]

/-- The entry point `Datasource.UnmarshalYAML` when the structural decode
succeeds. -/
theorem Datasource_UnmarshalYAML_decode_ok {P δ σ ε : Type} [Inhabited P]
    [DecidableEq δ] [DecidableEq σ] (tbl : Nat → Bool)
    (um : Datasource P δ σ → Datasource P δ σ × Option (GoError ε))
    (d t : Datasource P δ σ)
    (h : um Datasource.zero = (t, none)) :
    Datasource.UnmarshalYAML tbl d um =
      match t.validate ε tbl with
      | some err => (d, some err)
      | none => (t, none) := by
  simp [Datasource.UnmarshalYAML, h]

/-! ## Lemmas on `%q` -/

/-- A printable character other than the double quote and the backslash is
appended as it is. -/
theorem appendEscapedRune_plain (tbl : Nat → Bool) (buf : List Char) (c : Char)
    (h : (decide (c ≠ dquote) && decide (c ≠ backslash) && IsPrint tbl c.toNat) = true) :
    appendEscapedRune tbl buf c = buf ++ [c] := by
  simp only [Bool.and_eq_true, decide_eq_true_eq] at h
  obtain ⟨⟨h1, h2⟩, h3⟩ := h
  simp [appendEscapedRune, h1, h2, h3]

/-- Quoting a run of plain characters appends the run. -/
theorem foldl_appendEscapedRune_plain (tbl : Nat → Bool) (l buf : List Char)
    (h : l.all (fun c => decide (c ≠ dquote) && decide (c ≠ backslash) && IsPrint tbl c.toNat)
      = true) :
    l.foldl (appendEscapedRune tbl) buf = buf ++ l := by
  induction l generalizing buf with
  | nil => simp
  | cons c cs ih =>
    rw [List.all_cons, Bool.and_eq_true] at h
    rw [List.foldl_cons, appendEscapedRune_plain tbl buf c h.1, ih _ h.2]
    simp

/-- On plain text `%q` puts the text between double quotes. -/
theorem Quote_plainText (tbl : Nat → Bool) (s : String) (h : plainText tbl s = true) :
    Quote tbl s = "\"" ++ s ++ "\"" := by
  unfold plainText at h
  unfold Quote
  rw [foldl_appendEscapedRune_plain tbl _ _ h]
  apply String.ext
  simp [dquote]

/-- The reference predicate with both criteria is the conjunction of the two
predicates with one criterion each. -/
theorem keeps_both {T M δ σ : Type} [DatasourceInterface T M δ σ]
    (kind : String) (f : Bool) (d : T) :
    keeps kind (some f) d = (keeps kind none d && keeps "" (some f) d) := by
  simp [keeps]

/-- A message of the invalid-kind form is never the empty-spec message: the two
start with different characters. -/
theorem invalid_kind_ne_empty_spec (q s : String) :
    "invalid kind: " ++ q ++ s ≠ "spec cannot be empty" := by
  intro h
  have h2 := congrArg (fun t : String => t.data.head?) h
  simp only [String.data_append, List.append_assoc] at h2
  have h3 : (some (Char.ofNat 105) : Option Char) = some (Char.ofNat 115) := h2
  revert h3
  decide

/-- The method `Datasource.validate` on a value with another kind. -/
theorem Datasource_validate_wrong_kind {P δ σ ε : Type} [DecidableEq δ] [DecidableEq σ]
    (tbl : Nat → Bool) (d : Datasource P δ σ) (h : d.Kind ≠ "Datasource") :
    d.validate ε tbl
      = some (.errorf ("invalid kind: " ++ Quote tbl d.Kind ++ " for a Datasource type")) := by
  simp [Datasource.validate, KindDatasource, h]

/-- The method `GlobalDatasource.validate` on a value with another kind. -/
theorem GlobalDatasource_validate_wrong_kind {M δ σ ε : Type} [DecidableEq δ] [DecidableEq σ]
    (tbl : Nat → Bool) (g : GlobalDatasource M δ σ) (h : g.Kind ≠ "GlobalDatasource") :
    g.validate ε tbl
      = some (.errorf
          ("invalid kind: " ++ Quote tbl g.Kind ++ " for a GlobalDatasource type")) := by
  simp [GlobalDatasource.validate, KindGlobalDatasource, h]

/-- The method `Datasource.validate` returns the empty-spec error exactly on the
right kind with the zero spec. -/
theorem Datasource_validate_empty_iff {P δ σ ε : Type} [DecidableEq δ] [DecidableEq σ]
    (tbl : Nat → Bool) (d : Datasource P δ σ) :
    d.validate ε tbl = some (.errorf "spec cannot be empty") ↔
      d.Kind = "Datasource" ∧ d.Spec = DatasourceSpec.zero := by
  by_cases hk : d.Kind = "Datasource"
  · by_cases hs : d.Spec = DatasourceSpec.zero
    · simp [Datasource.validate, KindDatasource, hk, hs]
    · simp [Datasource.validate, KindDatasource, hk, hs]
  · rw [Datasource_validate_wrong_kind tbl d hk]
    constructor
    · intro h
      exact absurd (GoError.errorf.inj (Option.some.inj h)) (invalid_kind_ne_empty_spec _ _)
    · intro h
      exact absurd h.1 hk

/-- The method `GlobalDatasource.validate` returns the empty-spec error exactly
on the right kind with the zero spec. -/
theorem GlobalDatasource_validate_empty_iff {M δ σ ε : Type} [DecidableEq δ] [DecidableEq σ]
    (tbl : Nat → Bool) (g : GlobalDatasource M δ σ) :
    g.validate ε tbl = some (.errorf "spec cannot be empty") ↔
      g.Kind = "GlobalDatasource" ∧ g.Spec = DatasourceSpec.zero := by
  by_cases hk : g.Kind = "GlobalDatasource"
  · by_cases hs : g.Spec = DatasourceSpec.zero
    · simp [GlobalDatasource.validate, KindGlobalDatasource, hk, hs]
    · simp [GlobalDatasource.validate, KindGlobalDatasource, hk, hs]
  · rw [GlobalDatasource_validate_wrong_kind tbl g hk]
    constructor
    · intro h
      exact absurd (GoError.errorf.inj (Option.some.inj h)) (invalid_kind_ne_empty_spec _ _)
    · intro h
      exact absurd h.1 hk

/-! ## Lemmas on the selection function on elements that may be nil -/

/-- With no filter active the condition is false without any call of
`GetDTSSpec`. -/
theorem skipsRun_no_filter {T δ σ : Type} [DatasourceCalls T δ σ] (d : T) :
    skipsRun "" none d = .ok false := by
  simp [skipsRun, String.utf8ByteSize, String.utf8ByteSize.go]

/-- On an element on which `GetDTSSpec` returns, the condition returns. -/
theorem skipsRun_defined {T δ σ : Type} [DatasourceCalls T δ σ]
    (kind : String) (defaultDTS : Option Bool) (d : T) (sp : DatasourceSpec δ σ)
    (h : DatasourceCalls.runGetDTSSpec d = .ok sp) :
    ∃ b : Bool, skipsRun kind defaultDTS d = .ok b := by
  unfold skipsRun
  rw [h]
  by_cases hk : kind.utf8ByteSize > 0
  · by_cases he : kind = sp.Plugin.Kind
    · cases defaultDTS with
      | none => exact ⟨false, by simp [hk, he, Run.map]⟩
      | some b => exact ⟨decide (b ≠ sp.Default), by simp [hk, he, Run.map]⟩
    · exact ⟨true, by simp [hk, he, Run.map]⟩
  · cases defaultDTS with
    | none => exact ⟨false, by simp [hk]⟩
    | some b => exact ⟨decide (b ≠ sp.Default), by simp [hk, Run.map]⟩

/-- Whenever the loop returns from an allocated `result`, it returns an allocated
slice. -/
theorem filterLoopRun_ok_alloc {T δ σ : Type} [DatasourceCalls T δ σ]
    (kind : String) (defaultDTS : Option Bool) (xs acc : List T) (out : Slice T)
    (h : filterLoopRun kind defaultDTS xs (Slice.alloc acc) = .ok out) :
    ∃ l : List T, out = Slice.alloc l := by
  induction xs generalizing acc with
  | nil =>
    simp only [filterLoopRun, Run.ok.injEq] at h
    exact ⟨acc, h.symm⟩
  | cons x xs ih =>
    unfold filterLoopRun at h
    cases hs : skipsRun kind defaultDTS x with
    | panicked => rw [hs] at h; simp at h
    | ok b =>
      rw [hs] at h
      cases b
      · exact ih _ h
      · exact ih _ h

/-- When `GetDTSSpec` returns on every element, the loop returns the allocated
slice of `result` followed by the elements on which the condition is false. -/
theorem filterLoopRun_defined {T δ σ : Type} [DatasourceCalls T δ σ]
    (kind : String) (defaultDTS : Option Bool) (xs acc : List T)
    (h : ∀ d ∈ xs, ∃ sp, DatasourceCalls.runGetDTSSpec d = .ok sp) :
    filterLoopRun kind defaultDTS xs (Slice.alloc acc)
      = .ok (Slice.alloc (acc ++ xs.filter (keepsRun kind defaultDTS))) := by
  induction xs generalizing acc with
  | nil => simp [filterLoopRun]
  | cons x xs ih =>
    obtain ⟨sp, hsp⟩ := h x (List.mem_cons_self x xs)
    obtain ⟨b, hb⟩ := skipsRun_defined kind defaultDTS x sp hsp
    have ih2 := fun acc2 => ih acc2 (fun d hd => h d (List.mem_cons_of_mem x hd))
    unfold filterLoopRun
    rw [hb]
    cases b
    · simp only [Slice.append, Slice.toList]
      rw [ih2]
      simp [List.filter_cons, keepsRun, hb]
    · simp only
      rw [ih2]
      simp [List.filter_cons, keepsRun, hb]

/-- When the condition runs to true on every element, the loop returns its
`result`. -/
theorem filterLoopRun_all_skipped {T δ σ : Type} [DatasourceCalls T δ σ]
    (kind : String) (defaultDTS : Option Bool) (xs : List T) (result : Slice T)
    (h : ∀ d ∈ xs, skipsRun kind defaultDTS d = .ok true) :
    filterLoopRun kind defaultDTS xs result = .ok result := by
  induction xs with
  | nil => simp [filterLoopRun]
  | cons x xs ih =>
    unfold filterLoopRun
    rw [h x (List.mem_cons_self x xs)]
    exact ih (fun d hd => h d (List.mem_cons_of_mem x hd))

/-- With no filter active the loop appends every element, nil ones included. -/
theorem filterLoopRun_no_filter {T δ σ : Type} [DatasourceCalls T δ σ]
    (xs acc : List T) :
    filterLoopRun "" none xs (Slice.alloc acc) = .ok (Slice.alloc (acc ++ xs)) := by
  induction xs generalizing acc with
  | nil => simp [filterLoopRun]
  | cons x xs ih =>
    unfold filterLoopRun
    rw [skipsRun_no_filter]
    simp only [Slice.append, Slice.toList]
    rw [ih]
    simp

/-- On a non-nil pointer to a project datasource the condition runs to what
`skips` computes on the value. -/
theorem skipsRun_pointer {P δ σ : Type} (kind : String) (defaultDTS : Option Bool)
    (v : Datasource P δ σ) :
    skipsRun kind defaultDTS (some v) = .ok (skips kind defaultDTS v) := by
  unfold skipsRun skips
  simp only [DatasourceCalls.runGetDTSSpec, DatasourceInterface.GetDTSSpec, Run.map]
  by_cases hk : kind.utf8ByteSize > 0
  · by_cases he : kind = v.GetDTSSpec.Plugin.Kind
    · cases defaultDTS <;> simp [hk, he]
    · cases defaultDTS <;> simp [hk, he]
  · cases defaultDTS <;> simp [hk]

/-- On a list of non-nil pointers to project datasources the run returns the
pointers to the elements that `FilterDatasource` returns on the values. -/
theorem FilterDatasourceRun_pointers {P δ σ : Type} (kind : String)
    (defaultDTS : Option Bool) (l : List (Datasource P δ σ)) :
    FilterDatasourceRun kind defaultDTS (Slice.alloc (l.map some))
      = .ok (Slice.alloc ((FilterDatasource kind defaultDTS (Slice.alloc l)).toList.map some)) := by
  unfold FilterDatasourceRun Slice.make
  rw [filterLoopRun_defined]
  · rw [FilterDatasource_alloc]
    simp only [Slice.toList, List.nil_append, List.filter_map]
    congr 3
    apply List.filter_congr
    intro v _
    simp only [Function.comp, keepsRun, skipsRun_pointer, skips_eq_not_keeps]
    cases keeps kind defaultDTS v <;> rfl
  · intro d hd
    simp only [Slice.toList, List.mem_map] at hd
    obtain ⟨v, _, rfl⟩ := hd
    exact ⟨v.GetDTSSpec, rfl⟩

/-! ## Lemmas on when an entry point commits a given value -/

/-- C1. For every kind filter, optional default flag and list, the result of
`FilterDatasource` is the allocated slice holding the reference filter of the
list by the predicate `keeps` (kind filter empty or equal to the plugin kind, and
default filter absent or equal to the default flag): its elements are those of
the list that satisfy the predicate, in order and with their multiplicity. -/
theorem FilterDatasource_eq_filter {T M δ σ : Type} [DatasourceInterface T M δ σ]
    (kind : String) (defaultDTS : Option Bool) (list : Slice T) :
    FilterDatasource kind defaultDTS list
        = Slice.alloc (list.toList.filter (keeps kind defaultDTS)) ∧
      (FilterDatasource kind defaultDTS list).toList
        = list.toList.filter (fun d =>
            (decide (kind = "") ||
                decide ((DatasourceInterface.GetDTSSpec d).Plugin.Kind = kind)) &&
              (decide (defaultDTS = none) ||
                decide (defaultDTS = some (DatasourceInterface.GetDTSSpec d).Default))) := by
  refine ⟨FilterDatasource_alloc kind defaultDTS list, ?_⟩
  rw [FilterDatasource_alloc]
  simp only [Slice.toList]
  apply List.filter_congr
  intro d _
  unfold keeps
  cases defaultDTS with
  | none => simp
  | some f => 
    cases f <;> cases (DatasourceInterface.GetDTSSpec d).Default <;> simp

/-- C2. For both variants and every resource value, validation returns no error
if and only if the kind equals the fixed tag of the variant and the spec is not
the zero spec (no display, default false, zero plugin). -/
theorem validate_accepts_iff {M P δ σ ε : Type} [DecidableEq δ] [DecidableEq σ]
    (tbl : Nat → Bool) (g : GlobalDatasource M δ σ) (d : Datasource P δ σ) :
    (g.validate ε tbl = none ↔
        g.Kind = "GlobalDatasource" ∧
          g.Spec ≠ { Display := none, Default := false, Plugin := { Kind := "", Spec := none } }) ∧
      (d.validate ε tbl = none ↔
        d.Kind = "Datasource" ∧
          d.Spec ≠ { Display := none, Default := false, Plugin := { Kind := "", Spec := none } }) :=
  ⟨GlobalDatasource_validate_eq_none tbl g, Datasource_validate_eq_none tbl d⟩

/-- C3 (as stated, refuted). A project datasource whose structural decode yields
the kind made of one double quote is rejected with a message in which the kind
is escaped, which is not the kind placed as it is between double quotes. -/
theorem decode_invalid_kind_not_verbatim :
    Datasource.UnmarshalJSON noTable
        (fun _ => yields { Kind := "\"", Metadata := 1, Spec := promSpec }) priorDatasource []
      = (priorDatasource,
          some (.errorf "invalid kind: \"\\\"\" for a Datasource type")) ∧
    Datasource.UnmarshalJSON noTable
        (fun _ => yields { Kind := "\"", Metadata := 1, Spec := promSpec }) priorDatasource []
      ≠ (priorDatasource,
          some (.errorf ("invalid kind: \"" ++ "\"" ++ "\" for a Datasource type"))) := by
  constructor <;> decide

/-- C3 (amended). For every kind other than the fixed tag of the variant, and
every metadata and spec, a decode whose structural step yields that kind fails
through both entry points, leaves the receiver as it was, and returns the
message `invalid kind: ` followed by the kind in its `%q` form and
` for a Datasource type` (or ` for a GlobalDatasource type`); when the kind is
plain text (printable characters other than the double quote and the backslash)
its `%q` form is the kind itself between double quotes. -/
theorem decode_invalid_kind {P M δ σ ε : Type} [Inhabited P] [Inhabited M]
    [DecidableEq δ] [DecidableEq σ] (tbl : Nat → Bool) (k : String)
    (mP : P) (mM : M) (s : DatasourceSpec δ σ) :
    (k ≠ "Datasource" →
      (∀ (ju : Bytes → Datasource P δ σ → Datasource P δ σ × Option (GoError ε))
          (data : Bytes) (d0 : Datasource P δ σ),
          ju data Datasource.zero = ({ Kind := k, Metadata := mP, Spec := s }, none) →
          Datasource.UnmarshalJSON tbl ju d0 data
            = (d0, some (.errorf ("invalid kind: " ++ Quote tbl k ++ " for a Datasource type")))) ∧
      (∀ (um : Datasource P δ σ → Datasource P δ σ × Option (GoError ε))
          (d0 : Datasource P δ σ),
          um Datasource.zero = ({ Kind := k, Metadata := mP, Spec := s }, none) →
          Datasource.UnmarshalYAML tbl d0 um
            = (d0, some (.errorf ("invalid kind: " ++ Quote tbl k ++ " for a Datasource type"))))) ∧
    (k ≠ "GlobalDatasource" →
      (∀ (ju : Bytes → GlobalDatasource M δ σ → GlobalDatasource M δ σ × Option (GoError ε))
          (data : Bytes) (g0 : GlobalDatasource M δ σ),
          ju data GlobalDatasource.zero = ({ Kind := k, Metadata := mM, Spec := s }, none) →
          GlobalDatasource.UnmarshalJSON tbl ju g0 data
            = (g0, some (.errorf
                ("invalid kind: " ++ Quote tbl k ++ " for a GlobalDatasource type")))) ∧
      (∀ (um : GlobalDatasource M δ σ → GlobalDatasource M δ σ × Option (GoError ε))
          (g0 : GlobalDatasource M δ σ),
          um GlobalDatasource.zero = ({ Kind := k, Metadata := mM, Spec := s }, none) →
          GlobalDatasource.UnmarshalYAML tbl g0 um
            = (g0, some (.errorf
                ("invalid kind: " ++ Quote tbl k ++ " for a GlobalDatasource type"))))) ∧
    (plainText tbl k = true → Quote tbl k = "\"" ++ k ++ "\"") := by
  refine ⟨fun hk => ⟨?_, ?_⟩, fun hk => ⟨?_, ?_⟩, Quote_plainText tbl k⟩
  · intro ju data d0 h
    rw [Datasource_UnmarshalJSON_decode_ok tbl ju d0 _ data h]
    simp [Datasource.validate, KindDatasource, hk]
  · intro um d0 h
    rw [Datasource_UnmarshalYAML_decode_ok tbl um d0 _ h]
    simp [Datasource.validate, KindDatasource, hk]
  · intro ju data g0 h
    rw [GlobalDatasource_UnmarshalJSON_decode_ok tbl ju g0 _ data h]
    simp [GlobalDatasource.validate, KindGlobalDatasource, hk]
  · intro um g0 h
    rw [GlobalDatasource_UnmarshalYAML_decode_ok tbl um g0 _ h]
    simp [GlobalDatasource.validate, KindGlobalDatasource, hk]

/-- C3, at a concrete input: the kind `GlobalDatasource` on a project datasource
gives `invalid kind: "GlobalDatasource" for a Datasource type` through both
entry points, and the kind `Datasource` on a global datasource gives the
message for the global variant; the receiver keeps its prior value. -/
theorem decode_invalid_kind_witness :
    Datasource.UnmarshalJSON noTable
        (fun _ => yields { Kind := "GlobalDatasource", Metadata := 1, Spec := promSpec })
        priorDatasource [123, 125]
      = (priorDatasource,
          some (.errorf "invalid kind: \"GlobalDatasource\" for a Datasource type")) ∧
    Datasource.UnmarshalYAML noTable priorDatasource
        (yields { Kind := "GlobalDatasource", Metadata := 1, Spec := promSpec })
      = (priorDatasource,
          some (.errorf "invalid kind: \"GlobalDatasource\" for a Datasource type")) ∧
    GlobalDatasource.UnmarshalJSON noTable
        (fun _ => yields { Kind := "Datasource", Metadata := 3, Spec := promSpec })
        priorGlobal [123, 125]
      = (priorGlobal,
          some (.errorf "invalid kind: \"Datasource\" for a GlobalDatasource type")) ∧
    GlobalDatasource.UnmarshalYAML noTable priorGlobal
        (yields { Kind := "Datasource", Metadata := 3, Spec := promSpec })
      = (priorGlobal,
          some (.errorf "invalid kind: \"Datasource\" for a GlobalDatasource type")) := by
  have hd := decode_invalid_kind (ε := String) noTable "GlobalDatasource" (1 : Nat) (3 : Nat) promSpec
  have hg := decode_invalid_kind (ε := String) noTable "Datasource" (1 : Nat) (3 : Nat) promSpec
  have qd : Quote noTable "GlobalDatasource" = "\"GlobalDatasource\"" := hd.2.2 (by decide)
  have qg : Quote noTable "Datasource" = "\"Datasource\"" := hg.2.2 (by decide)
  refine ⟨?_, ?_, ?_, ?_⟩
  · have h := (hd.1 (by decide)).1 (fun _ => yields _) [123, 125] priorDatasource rfl
    rw [qd] at h
    exact h
  · have h := (hd.1 (by decide)).2 (yields _) priorDatasource rfl
    rw [qd] at h
    exact h
  · have h := (hg.2.1 (by decide)).1 (fun _ => yields _) [123, 125] priorGlobal rfl
    rw [qg] at h
    exact h
  · have h := (hg.2.1 (by decide)).2 (yields _) priorGlobal rfl
    rw [qg] at h
    exact h

/-- C4. For both variants and every metadata value, a decode whose structural
step yields the fixed kind of the variant and the zero spec (no display, default
false, zero plugin) fails through both entry points with the message
`spec cannot be empty` and leaves the receiver as it was. -/
theorem decode_empty_spec {P M δ σ ε : Type} [Inhabited P] [Inhabited M]
    [DecidableEq δ] [DecidableEq σ] (tbl : Nat → Bool) (mP : P) (mM : M) :
    (∀ (ju : Bytes → Datasource P δ σ → Datasource P δ σ × Option (GoError ε))
        (data : Bytes) (d0 : Datasource P δ σ),
        ju data Datasource.zero
          = ({ Kind := "Datasource", Metadata := mP,
               Spec := { Display := none, Default := false,
                         Plugin := { Kind := "", Spec := none } } }, none) →
        Datasource.UnmarshalJSON tbl ju d0 data
          = (d0, some (.errorf "spec cannot be empty"))) ∧
    (∀ (um : Datasource P δ σ → Datasource P δ σ × Option (GoError ε))
        (d0 : Datasource P δ σ),
        um Datasource.zero
          = ({ Kind := "Datasource", Metadata := mP,
               Spec := { Display := none, Default := false,
                         Plugin := { Kind := "", Spec := none } } }, none) →
        Datasource.UnmarshalYAML tbl d0 um
          = (d0, some (.errorf "spec cannot be empty"))) ∧
    (∀ (ju : Bytes → GlobalDatasource M δ σ → GlobalDatasource M δ σ × Option (GoError ε))
        (data : Bytes) (g0 : GlobalDatasource M δ σ),
        ju data GlobalDatasource.zero
          = ({ Kind := "GlobalDatasource", Metadata := mM,
               Spec := { Display := none, Default := false,
                         Plugin := { Kind := "", Spec := none } } }, none) →
        GlobalDatasource.UnmarshalJSON tbl ju g0 data
          = (g0, some (.errorf "spec cannot be empty"))) ∧
    (∀ (um : GlobalDatasource M δ σ → GlobalDatasource M δ σ × Option (GoError ε))
        (g0 : GlobalDatasource M δ σ),
        um GlobalDatasource.zero
          = ({ Kind := "GlobalDatasource", Metadata := mM,
               Spec := { Display := none, Default := false,
                         Plugin := { Kind := "", Spec := none } } }, none) →
        GlobalDatasource.UnmarshalYAML tbl g0 um
          = (g0, some (.errorf "spec cannot be empty"))) := by
  refine ⟨?_, ?_, ?_, ?_⟩
  · intro ju data d0 h
    rw [Datasource_UnmarshalJSON_decode_ok tbl ju d0 _ data h]
    simp [Datasource.validate, KindDatasource, DatasourceSpec.zero]
  · intro um d0 h
    rw [Datasource_UnmarshalYAML_decode_ok tbl um d0 _ h]
    simp [Datasource.validate, KindDatasource, DatasourceSpec.zero]
  · intro ju data g0 h
    rw [GlobalDatasource_UnmarshalJSON_decode_ok tbl ju g0 _ data h]
    simp [GlobalDatasource.validate, KindGlobalDatasource, DatasourceSpec.zero]
  · intro um g0 h
    rw [GlobalDatasource_UnmarshalYAML_decode_ok tbl um g0 _ h]
    simp [GlobalDatasource.validate, KindGlobalDatasource, DatasourceSpec.zero]

/-- C4, at a concrete input: the four entry points on a structural decode that
yields the right kind, some metadata and the zero spec. -/
theorem decode_empty_spec_witness :
    Datasource.UnmarshalJSON noTable
        (fun _ => yields { Kind := "Datasource", Metadata := 5, Spec := DatasourceSpec.zero })
        priorDatasource [123, 125]
      = (priorDatasource, some (.errorf "spec cannot be empty")) ∧
    Datasource.UnmarshalYAML noTable priorDatasource
        (yields { Kind := "Datasource", Metadata := 5, Spec := DatasourceSpec.zero })
      = (priorDatasource, some (.errorf "spec cannot be empty")) ∧
    GlobalDatasource.UnmarshalJSON noTable
        (fun _ => yields { Kind := "GlobalDatasource", Metadata := 6, Spec := DatasourceSpec.zero })
        priorGlobal [123, 125]
      = (priorGlobal, some (.errorf "spec cannot be empty")) ∧
    GlobalDatasource.UnmarshalYAML noTable priorGlobal
        (yields { Kind := "GlobalDatasource", Metadata := 6, Spec := DatasourceSpec.zero })
      = (priorGlobal, some (.errorf "spec cannot be empty")) :=
  have h := decode_empty_spec (δ := String) (σ := String) (ε := String) noTable (5 : Nat) (6 : Nat)
  ⟨h.1 (fun _ => yields _) [123, 125] priorDatasource rfl,
   h.2.1 (yields _) priorDatasource rfl,
   h.2.2.1 (fun _ => yields _) [123, 125] priorGlobal rfl,
   h.2.2.2 (yields _) priorGlobal rfl⟩

/-- C5. For the four decode entry points: whenever the entry point returns no
error, the value left in the receiver has the fixed kind of the variant and a
spec other than the zero spec. -/
theorem decode_success_is_valid {P M δ σ ε : Type} [Inhabited P] [Inhabited M]
    [DecidableEq δ] [DecidableEq σ] (tbl : Nat → Bool) :
    (∀ (ju : Bytes → Datasource P δ σ → Datasource P δ σ × Option (GoError ε))
        (data : Bytes) (d0 : Datasource P δ σ),
        (Datasource.UnmarshalJSON tbl ju d0 data).2 = none →
        (Datasource.UnmarshalJSON tbl ju d0 data).1.Kind = "Datasource" ∧
          (Datasource.UnmarshalJSON tbl ju d0 data).1.Spec ≠ DatasourceSpec.zero) ∧
    (∀ (um : Datasource P δ σ → Datasource P δ σ × Option (GoError ε))
        (d0 : Datasource P δ σ),
        (Datasource.UnmarshalYAML tbl d0 um).2 = none →
        (Datasource.UnmarshalYAML tbl d0 um).1.Kind = "Datasource" ∧
          (Datasource.UnmarshalYAML tbl d0 um).1.Spec ≠ DatasourceSpec.zero) ∧
    (∀ (ju : Bytes → GlobalDatasource M δ σ → GlobalDatasource M δ σ × Option (GoError ε))
        (data : Bytes) (g0 : GlobalDatasource M δ σ),
        (GlobalDatasource.UnmarshalJSON tbl ju g0 data).2 = none →
        (GlobalDatasource.UnmarshalJSON tbl ju g0 data).1.Kind = "GlobalDatasource" ∧
          (GlobalDatasource.UnmarshalJSON tbl ju g0 data).1.Spec ≠ DatasourceSpec.zero) ∧
    (∀ (um : GlobalDatasource M δ σ → GlobalDatasource M δ σ × Option (GoError ε))
        (g0 : GlobalDatasource M δ σ),
        (GlobalDatasource.UnmarshalYAML tbl g0 um).2 = none →
        (GlobalDatasource.UnmarshalYAML tbl g0 um).1.Kind = "GlobalDatasource" ∧
          (GlobalDatasource.UnmarshalYAML tbl g0 um).1.Spec ≠ DatasourceSpec.zero) := by
  refine ⟨?_, ?_, ?_, ?_⟩
  · intro ju data d0
    rcases hdec : ju data Datasource.zero with ⟨t, _ | e⟩
    · rw [Datasource_UnmarshalJSON_decode_ok tbl ju d0 t data hdec]
      cases hv : t.validate ε tbl with
      | none => exact fun _ => (Datasource_validate_eq_none tbl t).1 hv
      | some err => intro h; simp at h
    · rw [Datasource_UnmarshalJSON_decode_err tbl ju d0 t data e hdec]
      intro h; simp at h
  · intro um d0
    rcases hdec : um Datasource.zero with ⟨t, _ | e⟩
    · rw [Datasource_UnmarshalYAML_decode_ok tbl um d0 t hdec]
      cases hv : t.validate ε tbl with
      | none => exact fun _ => (Datasource_validate_eq_none tbl t).1 hv
      | some err => intro h; simp at h
    · rw [Datasource_UnmarshalYAML_decode_err tbl um d0 t e hdec]
      intro h; simp at h
  · intro ju data g0
    rcases hdec : ju data GlobalDatasource.zero with ⟨t, _ | e⟩
    · rw [GlobalDatasource_UnmarshalJSON_decode_ok tbl ju g0 t data hdec]
      cases hv : t.validate ε tbl with
      | none => exact fun _ => (GlobalDatasource_validate_eq_none tbl t).1 hv
      | some err => intro h; simp at h
    · rw [GlobalDatasource_UnmarshalJSON_decode_err tbl ju g0 t data e hdec]
      intro h; simp at h
  · intro um g0
    rcases hdec : um GlobalDatasource.zero with ⟨t, _ | e⟩
    · rw [GlobalDatasource_UnmarshalYAML_decode_ok tbl um g0 t hdec]
      cases hv : t.validate ε tbl with
      | none => exact fun _ => (GlobalDatasource_validate_eq_none tbl t).1 hv
      | some err => intro h; simp at h
    · rw [GlobalDatasource_UnmarshalYAML_decode_err tbl um g0 t e hdec]
      intro h; simp at h

/-- C5, at a concrete input: the four entry points succeed on a structural
decode that yields a valid resource, and the receiver then holds a valid
resource. -/
theorem decode_success_is_valid_witness :
    ((Datasource.UnmarshalJSON noTable (fun _ => yields promDatasource) priorDatasource []).2
        = none ∧
      (Datasource.UnmarshalJSON noTable (fun _ => yields promDatasource) priorDatasource []).1.Kind
        = "Datasource" ∧
      (Datasource.UnmarshalJSON noTable (fun _ => yields promDatasource) priorDatasource []).1.Spec
        ≠ DatasourceSpec.zero) ∧
    ((Datasource.UnmarshalYAML noTable priorDatasource (yields promDatasource)).2 = none ∧
      (Datasource.UnmarshalYAML noTable priorDatasource (yields promDatasource)).1.Kind
        = "Datasource" ∧
      (Datasource.UnmarshalYAML noTable priorDatasource (yields promDatasource)).1.Spec
        ≠ DatasourceSpec.zero) ∧
    ((GlobalDatasource.UnmarshalJSON noTable (fun _ => yields promGlobal) priorGlobal []).2
        = none ∧
      (GlobalDatasource.UnmarshalJSON noTable (fun _ => yields promGlobal) priorGlobal []).1.Kind
        = "GlobalDatasource" ∧
      (GlobalDatasource.UnmarshalJSON noTable (fun _ => yields promGlobal) priorGlobal []).1.Spec
        ≠ DatasourceSpec.zero) ∧
    ((GlobalDatasource.UnmarshalYAML noTable priorGlobal (yields promGlobal)).2 = none ∧
      (GlobalDatasource.UnmarshalYAML noTable priorGlobal (yields promGlobal)).1.Kind
        = "GlobalDatasource" ∧
      (GlobalDatasource.UnmarshalYAML noTable priorGlobal (yields promGlobal)).1.Spec
        ≠ DatasourceSpec.zero) :=
  have h := decode_success_is_valid (P := Nat) (M := Nat) (δ := String) (σ := String)
    (ε := String) noTable
  ⟨⟨by decide, h.1 (fun _ => yields promDatasource) [] priorDatasource (by decide)⟩,
   ⟨by decide, h.2.1 (yields promDatasource) priorDatasource (by decide)⟩,
   ⟨by decide, h.2.2.1 (fun _ => yields promGlobal) [] priorGlobal (by decide)⟩,
   ⟨by decide, h.2.2.2 (yields promGlobal) priorGlobal (by decide)⟩⟩

/-- C6. For the four decode entry points and every prior receiver value: if the
entry point returns an error, the receiver afterwards equals its prior value. -/
theorem decode_failure_keeps_receiver {P M δ σ ε : Type} [Inhabited P] [Inhabited M]
    [DecidableEq δ] [DecidableEq σ] (tbl : Nat → Bool) :
    (∀ (ju : Bytes → Datasource P δ σ → Datasource P δ σ × Option (GoError ε))
        (data : Bytes) (d0 : Datasource P δ σ),
        (Datasource.UnmarshalJSON tbl ju d0 data).2 ≠ none →
        (Datasource.UnmarshalJSON tbl ju d0 data).1 = d0) ∧
    (∀ (um : Datasource P δ σ → Datasource P δ σ × Option (GoError ε))
        (d0 : Datasource P δ σ),
        (Datasource.UnmarshalYAML tbl d0 um).2 ≠ none →
        (Datasource.UnmarshalYAML tbl d0 um).1 = d0) ∧
    (∀ (ju : Bytes → GlobalDatasource M δ σ → GlobalDatasource M δ σ × Option (GoError ε))
        (data : Bytes) (g0 : GlobalDatasource M δ σ),
        (GlobalDatasource.UnmarshalJSON tbl ju g0 data).2 ≠ none →
        (GlobalDatasource.UnmarshalJSON tbl ju g0 data).1 = g0) ∧
    (∀ (um : GlobalDatasource M δ σ → GlobalDatasource M δ σ × Option (GoError ε))
        (g0 : GlobalDatasource M δ σ),
        (GlobalDatasource.UnmarshalYAML tbl g0 um).2 ≠ none →
        (GlobalDatasource.UnmarshalYAML tbl g0 um).1 = g0) := by
  refine ⟨?_, ?_, ?_, ?_⟩
  · intro ju data d0
    rcases hdec : ju data Datasource.zero with ⟨t, _ | e⟩
    · rw [Datasource_UnmarshalJSON_decode_ok tbl ju d0 t data hdec]
      cases hv : t.validate ε tbl with
      | none => intro h; simp at h
      | some err => intro _; rfl
    · rw [Datasource_UnmarshalJSON_decode_err tbl ju d0 t data e hdec]
      intro _; rfl
  · intro um d0
    rcases hdec : um Datasource.zero with ⟨t, _ | e⟩
    · rw [Datasource_UnmarshalYAML_decode_ok tbl um d0 t hdec]
      cases hv : t.validate ε tbl with
      | none => intro h; simp at h
      | some err => intro _; rfl
    · rw [Datasource_UnmarshalYAML_decode_err tbl um d0 t e hdec]
      intro _; rfl
  · intro ju data g0
    rcases hdec : ju data GlobalDatasource.zero with ⟨t, _ | e⟩
    · rw [GlobalDatasource_UnmarshalJSON_decode_ok tbl ju g0 t data hdec]
      cases hv : t.validate ε tbl with
      | none => intro h; simp at h
      | some err => intro _; rfl
    · rw [GlobalDatasource_UnmarshalJSON_decode_err tbl ju g0 t data e hdec]
      intro _; rfl
  · intro um g0
    rcases hdec : um GlobalDatasource.zero with ⟨t, _ | e⟩
    · rw [GlobalDatasource_UnmarshalYAML_decode_ok tbl um g0 t hdec]
      cases hv : t.validate ε tbl with
      | none => intro h; simp at h
      | some err => intro _; rfl
    · rw [GlobalDatasource_UnmarshalYAML_decode_err tbl um g0 t e hdec]
      intro _; rfl

/-- C6, at concrete inputs: a malformed input, an invalid kind and an empty spec
each return an error and leave the receiver at its prior value. -/
theorem decode_failure_keeps_receiver_witness :
    ((Datasource.UnmarshalJSON noTable
          (fun _ => failsWith promDatasource (.foreign "unexpected end of JSON input"))
          priorDatasource [123]).2 ≠ none ∧
      (Datasource.UnmarshalJSON noTable
          (fun _ => failsWith promDatasource (.foreign "unexpected end of JSON input"))
          priorDatasource [123]).1 = priorDatasource) ∧
    ((Datasource.UnmarshalYAML noTable priorDatasource
          (yields { Kind := "Dashboard", Metadata := 1, Spec := promSpec })).2 ≠ none ∧
      (Datasource.UnmarshalYAML noTable priorDatasource
          (yields { Kind := "Dashboard", Metadata := 1, Spec := promSpec })).1
        = priorDatasource) ∧
    ((GlobalDatasource.UnmarshalJSON noTable
          (fun _ => yields { Kind := "GlobalDatasource", Metadata := 3,
                             Spec := DatasourceSpec.zero })
          priorGlobal []).2 ≠ none ∧
      (GlobalDatasource.UnmarshalJSON noTable
          (fun _ => yields { Kind := "GlobalDatasource", Metadata := 3,
                             Spec := DatasourceSpec.zero })
          priorGlobal []).1 = priorGlobal) ∧
    ((GlobalDatasource.UnmarshalYAML noTable priorGlobal
          (failsWith promGlobal (.foreign "yaml: unmarshal errors"))).2 ≠ none ∧
      (GlobalDatasource.UnmarshalYAML noTable priorGlobal
          (failsWith promGlobal (.foreign "yaml: unmarshal errors"))).1 = priorGlobal) :=
  have h := decode_failure_keeps_receiver (P := Nat) (M := Nat) (δ := String) (σ := String)
    (ε := String) noTable
  ⟨⟨by decide, h.1 _ [123] priorDatasource (by decide)⟩,
   ⟨by decide, h.2.1 _ priorDatasource (by decide)⟩,
   ⟨by decide, h.2.2.1 _ [] priorGlobal (by decide)⟩,
   ⟨by decide, h.2.2.2 _ priorGlobal (by decide)⟩⟩

/-- C7. For the four decode entry points: if the structural decode step returns
an error, the entry point returns that same error and leaves the receiver at its
prior value, whatever the structural step has written to the temporary value
(so the outcome does not depend on what validation would say of it). -/
theorem decode_error_propagated {P M δ σ ε : Type} [Inhabited P] [Inhabited M]
    [DecidableEq δ] [DecidableEq σ] (tbl : Nat → Bool) (e : GoError ε) :
    (∀ (ju : Bytes → Datasource P δ σ → Datasource P δ σ × Option (GoError ε))
        (data : Bytes) (d0 t : Datasource P δ σ),
        ju data Datasource.zero = (t, some e) →
        Datasource.UnmarshalJSON tbl ju d0 data = (d0, some e)) ∧
    (∀ (um : Datasource P δ σ → Datasource P δ σ × Option (GoError ε))
        (d0 t : Datasource P δ σ),
        um Datasource.zero = (t, some e) →
        Datasource.UnmarshalYAML tbl d0 um = (d0, some e)) ∧
    (∀ (ju : Bytes → GlobalDatasource M δ σ → GlobalDatasource M δ σ × Option (GoError ε))
        (data : Bytes) (g0 t : GlobalDatasource M δ σ),
        ju data GlobalDatasource.zero = (t, some e) →
        GlobalDatasource.UnmarshalJSON tbl ju g0 data = (g0, some e)) ∧
    (∀ (um : GlobalDatasource M δ σ → GlobalDatasource M δ σ × Option (GoError ε))
        (g0 t : GlobalDatasource M δ σ),
        um GlobalDatasource.zero = (t, some e) →
        GlobalDatasource.UnmarshalYAML tbl g0 um = (g0, some e)) :=
  ⟨fun ju data d0 t h => Datasource_UnmarshalJSON_decode_err tbl ju d0 t data e h,
   fun um d0 t h => Datasource_UnmarshalYAML_decode_err tbl um d0 t e h,
   fun ju data g0 t h => GlobalDatasource_UnmarshalJSON_decode_err tbl ju g0 t data e h,
   fun um g0 t h => GlobalDatasource_UnmarshalYAML_decode_err tbl um g0 t e h⟩

/-- C7, at concrete inputs: the structural step fails after writing a value that
validation would reject with its own error (a wrong kind, an empty spec) or
would accept; the entry point returns the error of the structural step. -/
theorem decode_error_propagated_witness :
    Datasource.UnmarshalJSON noTable
        (fun _ => failsWith { Kind := "Dashboard", Metadata := 1, Spec := promSpec }
          (.foreign "unexpected end of JSON input"))
        priorDatasource [123]
      = (priorDatasource, some (.foreign "unexpected end of JSON input")) ∧
    Datasource.UnmarshalYAML noTable priorDatasource
        (failsWith { Kind := "Datasource", Metadata := 1, Spec := DatasourceSpec.zero }
          (.foreign "unexpected end of JSON input"))
      = (priorDatasource, some (.foreign "unexpected end of JSON input")) ∧
    GlobalDatasource.UnmarshalJSON noTable
        (fun _ => failsWith promGlobal (.foreign "unexpected end of JSON input"))
        priorGlobal [123]
      = (priorGlobal, some (.foreign "unexpected end of JSON input")) ∧
    GlobalDatasource.UnmarshalYAML noTable priorGlobal
        (failsWith { Kind := "", Metadata := 0, Spec := promSpec }
          (.foreign "unexpected end of JSON input"))
      = (priorGlobal, some (.foreign "unexpected end of JSON input")) :=
  have h := decode_error_propagated (P := Nat) (M := Nat) (δ := String) (σ := String)
    noTable (GoError.foreign "unexpected end of JSON input")
  ⟨h.1 _ [123] priorDatasource _ rfl, h.2.1 _ priorDatasource _ rfl,
   h.2.2.1 _ [123] priorGlobal _ rfl, h.2.2.2 _ priorGlobal _ rfl⟩

/-- C9. For every kind filter, default filter and list, the elements of the
result of `FilterDatasource` form a subsequence of the elements of the list
(same relative order, nothing duplicated or reordered), and the result is not
longer than the list. -/
theorem FilterDatasource_sublist {T M δ σ : Type} [DatasourceInterface T M δ σ]
    (kind : String) (defaultDTS : Option Bool) (list : Slice T) :
    List.Sublist (FilterDatasource kind defaultDTS list).toList list.toList ∧
      (FilterDatasource kind defaultDTS list).len ≤ list.len := by
  have hsub : List.Sublist (FilterDatasource kind defaultDTS list).toList list.toList := by
    rw [FilterDatasource_alloc]
    exact List.filter_sublist _
  exact ⟨hsub, hsub.length_le⟩

/-- C10 (as stated, refuted). On a list of pointers with a nil element the run
of `FilterDatasource` panics as soon as a filter is active, by kind or by
default flag: it does not return a sequence. -/
theorem FilterDatasourceRun_panics_on_nil :
    FilterDatasourceRun "prometheus" none
        (Slice.alloc [some promDatasource, (none : Option (Datasource Nat String String))])
      = .panicked ∧
    FilterDatasourceRun "" (some true)
        (Slice.alloc [(none : Option (Datasource Nat String String))])
      = .panicked := by
  decide

/-- C10 (amended). Whenever `FilterDatasource` returns, its result is an
allocated slice, never the nil slice. It returns on every input on whose
elements `GetDTSSpec` returns (no nil element), the nil list and the empty list
included, and the result is the allocated empty slice when the list has no
element or the condition skips every element. With no filter active it returns
the whole list, nil elements included. -/
theorem FilterDatasourceRun_never_null {T δ σ : Type} [DatasourceCalls T δ σ]
    (kind : String) (defaultDTS : Option Bool) (list : Slice T) :
    (∀ out : Slice T, FilterDatasourceRun kind defaultDTS list = .ok out →
        out.isNull = false) ∧
      ((∀ d ∈ list.toList, ∃ sp, DatasourceCalls.runGetDTSSpec d = .ok sp) →
        FilterDatasourceRun kind defaultDTS list
          = .ok (Slice.alloc (list.toList.filter (keepsRun kind defaultDTS)))) ∧
      FilterDatasourceRun kind defaultDTS (Slice.null : Slice T) = .ok (Slice.alloc []) ∧
      (list.toList = [] → FilterDatasourceRun kind defaultDTS list = .ok (Slice.alloc [])) ∧
      ((∀ d ∈ list.toList, skipsRun kind defaultDTS d = .ok true) →
        FilterDatasourceRun kind defaultDTS list = .ok (Slice.alloc [])) ∧
      FilterDatasourceRun "" none list = .ok (Slice.alloc list.toList) := by
  refine ⟨?_, ?_, ?_, ?_, ?_, ?_⟩
  · intro out h
    obtain ⟨l, rfl⟩ := filterLoopRun_ok_alloc kind defaultDTS list.toList [] out h
    rfl
  · intro h
    unfold FilterDatasourceRun Slice.make
    rw [filterLoopRun_defined kind defaultDTS list.toList [] h]
    simp
  · rfl
  · intro h
    unfold FilterDatasourceRun Slice.make
    rw [h]
    rfl
  · intro h
    exact filterLoopRun_all_skipped kind defaultDTS list.toList _ h
  · unfold FilterDatasourceRun Slice.make
    rw [filterLoopRun_no_filter]
    simp

/-- C10, at concrete inputs: on a list of two non-nil pointers the run returns
the allocated slice of the kept one; on a list whose only element is skipped it
returns the allocated empty slice. -/
theorem FilterDatasourceRun_never_null_witness :
    FilterDatasourceRun "prometheus" none
        (Slice.alloc [some promDatasource, some lokiDatasource])
      = .ok (Slice.alloc [some promDatasource]) ∧
    FilterDatasourceRun "prometheus" none (Slice.alloc [some lokiDatasource])
      = .ok (Slice.alloc []) :=
  ⟨((FilterDatasourceRun_never_null "prometheus" none
        (Slice.alloc [some promDatasource, some lokiDatasource])).2.1
      (by
        intro d hd
        simp only [Slice.toList, List.mem_cons, List.mem_singleton, List.not_mem_nil,
          or_false] at hd
        rcases hd with rfl | rfl
        · exact ⟨promDatasource.GetDTSSpec, rfl⟩
        · exact ⟨lokiDatasource.GetDTSSpec, rfl⟩)).trans (by decide),
   (FilterDatasourceRun_never_null "prometheus" none
        (Slice.alloc [some lokiDatasource])).2.2.2.2.1 (by decide)⟩

/-- C11. Filtering by a kind and a present default flag is the intersection of
the two filters with one criterion each: for every kind, flag and list,
`FilterDatasource` with both criteria equals the kind filter applied to the
result of the default filter, and equals the default filter applied to the
result of the kind filter; its elements are those that both single filters
return. -/
theorem FilterDatasource_compose {T M δ σ : Type} [DatasourceInterface T M δ σ]
    (kind : String) (f : Bool) (list : Slice T) :
    FilterDatasource kind (some f) list
        = FilterDatasource kind none (FilterDatasource "" (some f) list) ∧
      FilterDatasource kind (some f) list
        = FilterDatasource "" (some f) (FilterDatasource kind none list) ∧
      (∀ d : T, d ∈ (FilterDatasource kind (some f) list).toList ↔
          d ∈ (FilterDatasource kind none list).toList ∧
            d ∈ (FilterDatasource "" (some f) list).toList) := by
  refine ⟨?_, ?_, ?_⟩
  · simp only [FilterDatasource_alloc, Slice.toList, List.filter_filter]
    congr 1
    apply List.filter_congr
    intro d _
    exact keeps_both kind f d
  · simp only [FilterDatasource_alloc, Slice.toList, List.filter_filter]
    congr 1
    apply List.filter_congr
    intro d _
    rw [keeps_both, Bool.and_comm]
  · intro d
    simp only [FilterDatasource_alloc, Slice.toList, List.mem_filter]
    rw [keeps_both kind f d, Bool.and_eq_true]
    tauto

/-- C12. For every resource that validation accepts, `GetKind` returns the fixed
literal of the variant: `GlobalDatasource` for a global datasource and
`Datasource` for a project datasource. -/
theorem GetKind_of_valid {M P δ σ ε : Type} [DecidableEq δ] [DecidableEq σ]
    (tbl : Nat → Bool) (g : GlobalDatasource M δ σ) (d : Datasource P δ σ) :
    (g.validate ε tbl = none → g.GetKind = "GlobalDatasource") ∧
      (d.validate ε tbl = none → d.GetKind = "Datasource") :=
  ⟨fun h => ((GlobalDatasource_validate_eq_none tbl g).1 h).1,
   fun h => ((Datasource_validate_eq_none tbl d).1 h).1⟩

/-- C12, at a concrete input: a validated global datasource and a validated
project datasource return their literals. -/
theorem GetKind_of_valid_witness :
    (promGlobal.validate String noTable = none ∧ promGlobal.GetKind = "GlobalDatasource") ∧
      (promDatasource.validate String noTable = none ∧
        promDatasource.GetKind = "Datasource") :=
  have h := GetKind_of_valid (ε := String) noTable promGlobal promDatasource
  ⟨⟨by decide, h.1 (by decide)⟩, ⟨by decide, h.2 (by decide)⟩⟩

/-- C13 (as stated, refuted). A project datasource and a global datasource with
the right kind and a spec whose only non-zero field is the default flag are
accepted by validation although their plugin is the zero plugin value, with an
empty kind tag. -/
theorem valid_with_zero_plugin :
    (Datasource.validate String noTable
        { Kind := "Datasource", Metadata := 1, Spec := defaultOnlySpec } = none ∧
      defaultOnlySpec.Plugin = { Kind := "", Spec := none }) ∧
    (GlobalDatasource.validate String noTable
        { Kind := "GlobalDatasource", Metadata := 3, Spec := defaultOnlySpec } = none ∧
      defaultOnlySpec.Plugin.Kind = "") := by
  decide

/-- C13 (amended). Every resource of either variant that validation accepts has
a spec with some non-zero field: a display, or the default flag set, or a plugin
other than the zero plugin value; so an accepted resource with no display and
default false has a plugin other than the zero plugin value. -/
theorem valid_spec_not_zero {M P δ σ ε : Type} [DecidableEq δ] [DecidableEq σ]
    (tbl : Nat → Bool) (g : GlobalDatasource M δ σ) (d : Datasource P δ σ) :
    (g.validate ε tbl = none →
        (g.Spec.Display ≠ none ∨ g.Spec.Default = true ∨
            g.Spec.Plugin ≠ { Kind := "", Spec := none }) ∧
          (g.Spec.Display = none → g.Spec.Default = false →
            g.Spec.Plugin ≠ { Kind := "", Spec := none })) ∧
      (d.validate ε tbl = none →
        (d.Spec.Display ≠ none ∨ d.Spec.Default = true ∨
            d.Spec.Plugin ≠ { Kind := "", Spec := none }) ∧
          (d.Spec.Display = none → d.Spec.Default = false →
            d.Spec.Plugin ≠ { Kind := "", Spec := none })) := by
  have key : ∀ s : DatasourceSpec δ σ, s ≠ DatasourceSpec.zero →
      (s.Display ≠ none ∨ s.Default = true ∨ s.Plugin ≠ { Kind := "", Spec := none }) ∧
        (s.Display = none → s.Default = false → s.Plugin ≠ { Kind := "", Spec := none }) := by
    intro s hs
    have h2 : s.Display = none → s.Default = false →
        s.Plugin ≠ { Kind := "", Spec := none } := by
      intro h1 h2 h3
      apply hs
      cases s
      simp only [DatasourceSpec.zero] at *
      simp [h1, h2, h3]
    refine ⟨?_, h2⟩
    by_cases hd : s.Display = none
    · cases hb : s.Default
      · exact Or.inr (Or.inr (h2 hd hb))
      · exact Or.inr (Or.inl rfl)
    · exact Or.inl hd
  exact ⟨fun h => key _ ((GlobalDatasource_validate_eq_none tbl g).1 h).2,
    fun h => key _ ((Datasource_validate_eq_none tbl d).1 h).2⟩

/-- C13, at a concrete input: a validated resource of each variant with no
display and default false, whose plugin is then not the zero plugin value, and
one with the default flag set. -/
theorem valid_spec_not_zero_witness :
    (Datasource.validate String noTable
        { Kind := "Datasource", Metadata := 4,
          Spec := { Display := (none : Option String), Default := false,
                    Plugin := { Kind := "prometheus", Spec := (none : Option String) } } }
        = none ∧
      ({ Kind := "prometheus", Spec := none } : Plugin String) ≠ { Kind := "", Spec := none }) ∧
    (promGlobal.validate String noTable = none ∧
      (promGlobal.Spec.Display ≠ none ∨ promGlobal.Spec.Default = true ∨
        promGlobal.Spec.Plugin ≠ { Kind := "", Spec := none })) :=
  ⟨⟨by decide,
    ((valid_spec_not_zero (ε := String) noTable promGlobal
      { Kind := "Datasource", Metadata := (4 : Nat),
        Spec := { Display := (none : Option String), Default := false,
                  Plugin := { Kind := "prometheus", Spec := (none : Option String) } } }).2
      (by decide)).2 rfl rfl⟩,
   ⟨by decide,
    ((valid_spec_not_zero (ε := String) noTable promGlobal promDatasource).1 (by decide)).1⟩⟩

/-- C14 (as stated, refuted). After `c := d.GetDTSSpec()` on a resource whose
display pointer is not nil, a write through the display pointer of the copy
changes the display that the stored resource shows, for both variants. -/
theorem write_through_copy_reaches_stored :
    ((pointerDatasource.callGetDTSSpec sampleDisplays).storedDisplay = some "logs" ∧
      ((pointerDatasource.callGetDTSSpec sampleDisplays).writeDisplay "changed").map
          (fun fr => fr.storedDisplay)
        = .ok (some "changed")) ∧
    ((pointerGlobal.callGetDTSSpec sampleDisplays).storedDisplay = some "logs" ∧
      ((pointerGlobal.callGetDTSSpec sampleDisplays).writeDisplay "changed").map
          (fun fr => fr.storedDisplay)
        = .ok (some "changed")) := by
  decide

/-- C14 (amended). The method `GetDTSSpec` returns a shallow copy, for both
variants: the value returned equals the spec of the resource; assigning the
display, the default flag or the plugin field of the copy changes the copy and
leaves the kind, the metadata, the spec and the display cells of the resource as
they were; the display pointer is shared, so a write through the display pointer
of the copy leaves the fields of the resource as they were and changes the
display the resource shows. -/
theorem GetDTSSpec_shallow_copy {M P D σ : Type} (displays : Nat → D)
    (g : GlobalDatasource M Nat σ) (d : Datasource P Nat σ)
    (x : Option Nat) (b : Bool) (p : Plugin σ) (v : D) (a : Nat) :
    (g.GetDTSSpec = g.Spec ∧ (g.callGetDTSSpec displays).c = g.Spec ∧
      ((g.callGetDTSSpec displays).assignDisplay x).stored = g ∧
      ((g.callGetDTSSpec displays).assignDefault b).stored = g ∧
      ((g.callGetDTSSpec displays).assignPlugin p).stored = g ∧
      ((((g.callGetDTSSpec displays).assignDisplay x).assignDefault b).assignPlugin p).stored.Kind
        = g.Kind ∧
      ((((g.callGetDTSSpec displays).assignDisplay x).assignDefault b).assignPlugin
          p).stored.Metadata = g.Metadata ∧
      ((((g.callGetDTSSpec displays).assignDisplay x).assignDefault b).assignPlugin p).stored.Spec
        = g.Spec ∧
      ((((g.callGetDTSSpec displays).assignDisplay x).assignDefault b).assignPlugin p).displays
        = displays ∧
      ((((g.callGetDTSSpec displays).assignDisplay x).assignDefault b).assignPlugin
          p).storedDisplay = g.Spec.Display.map displays ∧
      ((((g.callGetDTSSpec displays).assignDisplay x).assignDefault b).assignPlugin p).c
        = { Display := x, Default := b, Plugin := p } ∧
      (g.Spec.Display = some a →
        ∃ fr, (g.callGetDTSSpec displays).writeDisplay v = .ok fr ∧ fr.stored = g ∧
          fr.c = g.Spec ∧ fr.storedDisplay = some v)) ∧
    (d.GetDTSSpec = d.Spec ∧ (d.callGetDTSSpec displays).c = d.Spec ∧
      ((d.callGetDTSSpec displays).assignDisplay x).stored = d ∧
      ((d.callGetDTSSpec displays).assignDefault b).stored = d ∧
      ((d.callGetDTSSpec displays).assignPlugin p).stored = d ∧
      ((((d.callGetDTSSpec displays).assignDisplay x).assignDefault b).assignPlugin p).stored.Kind
        = d.Kind ∧
      ((((d.callGetDTSSpec displays).assignDisplay x).assignDefault b).assignPlugin
          p).stored.Metadata = d.Metadata ∧
      ((((d.callGetDTSSpec displays).assignDisplay x).assignDefault b).assignPlugin p).stored.Spec
        = d.Spec ∧
      ((((d.callGetDTSSpec displays).assignDisplay x).assignDefault b).assignPlugin p).displays
        = displays ∧
      ((((d.callGetDTSSpec displays).assignDisplay x).assignDefault b).assignPlugin
          p).storedDisplay = d.Spec.Display.map displays ∧
      ((((d.callGetDTSSpec displays).assignDisplay x).assignDefault b).assignPlugin p).c
        = { Display := x, Default := b, Plugin := p } ∧
      (d.Spec.Display = some a →
        ∃ fr, (d.callGetDTSSpec displays).writeDisplay v = .ok fr ∧ fr.stored = d ∧
          fr.c = d.Spec ∧ fr.storedDisplay = some v)) := by
  refine ⟨⟨rfl, rfl, rfl, rfl, rfl, rfl, rfl, rfl, rfl, rfl, rfl, ?_⟩,
    ⟨rfl, rfl, rfl, rfl, rfl, rfl, rfl, rfl, rfl, rfl, rfl, ?_⟩⟩
  · intro h
    refine ⟨{ displays := fun b => if b = a then v else displays b, stored := g,
              c := g.GetDTSSpec }, ?_, rfl, rfl, ?_⟩
    · simp [Frame.writeDisplay, GlobalDatasource.callGetDTSSpec, GlobalDatasource.GetDTSSpec, h]
    · simp [Frame.storedDisplay, DatasourceInterface.GetDTSSpec, GlobalDatasource.GetDTSSpec, h]
  · intro h
    refine ⟨{ displays := fun b => if b = a then v else displays b, stored := d,
              c := d.GetDTSSpec }, ?_, rfl, rfl, ?_⟩
    · simp [Frame.writeDisplay, Datasource.callGetDTSSpec, Datasource.GetDTSSpec, h]
    · simp [Frame.storedDisplay, DatasourceInterface.GetDTSSpec, Datasource.GetDTSSpec, h]

/-- C14, at a concrete input: after a write through the display pointer of the
copy, the stored resource of each variant has its fields as before and shows
the display written. -/
theorem GetDTSSpec_shallow_copy_witness :
    (∃ fr, (pointerGlobal.callGetDTSSpec sampleDisplays).writeDisplay "changed" = .ok fr ∧
        fr.stored = pointerGlobal ∧ fr.c = pointerGlobal.Spec ∧
        fr.storedDisplay = some "changed") ∧
    (∃ fr, (pointerDatasource.callGetDTSSpec sampleDisplays).writeDisplay "changed" = .ok fr ∧
        fr.stored = pointerDatasource ∧ fr.c = pointerDatasource.Spec ∧
        fr.storedDisplay = some "changed") :=
  have h := GetDTSSpec_shallow_copy sampleDisplays pointerGlobal pointerDatasource
    none false { Kind := "", Spec := none } "changed" 0
  ⟨h.1.2.2.2.2.2.2.2.2.2.2.2 rfl, h.2.2.2.2.2.2.2.2.2.2.2.2 rfl⟩

/-- C15. The two encodings validate alike, for both variants: if the JSON
structural decode and the YAML structural decode return the same error, or both
succeed with the same temporary value, then `UnmarshalJSON` and `UnmarshalYAML`
return the same error or success and leave the receiver in the same state. -/
theorem encodings_validate_alike {P M δ σ ε : Type} [Inhabited P] [Inhabited M]
    [DecidableEq δ] [DecidableEq σ] (tbl : Nat → Bool) :
    (∀ (ju : Bytes → Datasource P δ σ → Datasource P δ σ × Option (GoError ε))
        (data : Bytes) (um : Datasource P δ σ → Datasource P δ σ × Option (GoError ε))
        (d0 : Datasource P δ σ),
        (ju data Datasource.zero).2 = (um Datasource.zero).2 →
        ((ju data Datasource.zero).2 = none →
          (ju data Datasource.zero).1 = (um Datasource.zero).1) →
        Datasource.UnmarshalJSON tbl ju d0 data = Datasource.UnmarshalYAML tbl d0 um) ∧
    (∀ (ju : Bytes → GlobalDatasource M δ σ → GlobalDatasource M δ σ × Option (GoError ε))
        (data : Bytes)
        (um : GlobalDatasource M δ σ → GlobalDatasource M δ σ × Option (GoError ε))
        (g0 : GlobalDatasource M δ σ),
        (ju data GlobalDatasource.zero).2 = (um GlobalDatasource.zero).2 →
        ((ju data GlobalDatasource.zero).2 = none →
          (ju data GlobalDatasource.zero).1 = (um GlobalDatasource.zero).1) →
        GlobalDatasource.UnmarshalJSON tbl ju g0 data
          = GlobalDatasource.UnmarshalYAML tbl g0 um) := by
  refine ⟨?_, ?_⟩
  · intro ju data um d0
    rcases hj : ju data Datasource.zero with ⟨t, _ | e⟩
    · rcases hy : um Datasource.zero with ⟨u, _ | e2⟩
      · intro _ h2
        have htu : t = u := h2 rfl
        subst htu
        rw [Datasource_UnmarshalJSON_decode_ok tbl ju d0 t data hj,
          Datasource_UnmarshalYAML_decode_ok tbl um d0 t hy]
      · intro h1
        simp at h1
    · rcases hy : um Datasource.zero with ⟨u, _ | e2⟩
      · intro h1
        simp at h1
      · intro h1 _
        have hee : e = e2 := Option.some.inj h1
        subst hee
        rw [Datasource_UnmarshalJSON_decode_err tbl ju d0 t data e hj,
          Datasource_UnmarshalYAML_decode_err tbl um d0 u e hy]
  · intro ju data um g0
    rcases hj : ju data GlobalDatasource.zero with ⟨t, _ | e⟩
    · rcases hy : um GlobalDatasource.zero with ⟨u, _ | e2⟩
      · intro _ h2
        have htu : t = u := h2 rfl
        subst htu
        rw [GlobalDatasource_UnmarshalJSON_decode_ok tbl ju g0 t data hj,
          GlobalDatasource_UnmarshalYAML_decode_ok tbl um g0 t hy]
      · intro h1
        simp at h1
    · rcases hy : um GlobalDatasource.zero with ⟨u, _ | e2⟩
      · intro h1
        simp at h1
      · intro h1 _
        have hee : e = e2 := Option.some.inj h1
        subst hee
        rw [GlobalDatasource_UnmarshalJSON_decode_err tbl ju g0 t data e hj,
          GlobalDatasource_UnmarshalYAML_decode_err tbl um g0 u e hy]

/-- C15, at concrete inputs: the same valid temporary value through both
encodings of a project datasource, and the same structural error (with
different leftovers in the temporary value) through both encodings of a global
datasource. -/
theorem encodings_validate_alike_witness :
    (Datasource.UnmarshalJSON noTable toyUnmarshal priorDatasource [2]
        = Datasource.UnmarshalYAML noTable priorDatasource (yields lokiDatasource) ∧
      Datasource.UnmarshalYAML noTable priorDatasource (yields lokiDatasource)
        = (lokiDatasource, none)) ∧
    (GlobalDatasource.UnmarshalJSON noTable toyUnmarshalGlobal priorGlobal [9]
        = GlobalDatasource.UnmarshalYAML noTable priorGlobal
            (failsWith promGlobal (.foreign "unexpected end of JSON input")) ∧
      GlobalDatasource.UnmarshalYAML noTable priorGlobal
          (failsWith promGlobal (.foreign "unexpected end of JSON input"))
        = (priorGlobal, some (.foreign "unexpected end of JSON input"))) :=
  have h := encodings_validate_alike (P := Nat) (M := Nat) (δ := String) (σ := String)
    (ε := String) noTable
  ⟨⟨h.1 toyUnmarshal [2] (yields lokiDatasource) priorDatasource (by decide)
      (fun _ => by decide), by decide⟩,
   ⟨h.2 toyUnmarshalGlobal [9] (failsWith promGlobal (.foreign "unexpected end of JSON input"))
      priorGlobal (by decide) (fun hn => absurd hn (by decide)), by decide⟩⟩

/-- C16. Validation is a pure predicate, for both variants: a call of `validate`
leaves the kind, the metadata and the spec of its receiver as they were, a
second call returns what the first returned, and on a value that validation
accepts both calls succeed and the value is unchanged. -/
theorem validate_pure {M P δ σ ε : Type} [DecidableEq δ] [DecidableEq σ]
    (tbl : Nat → Bool) (g : GlobalDatasource M δ σ) (d : Datasource P δ σ) :
    ((g.validateCall ε tbl).1.Kind = g.Kind ∧
      (g.validateCall ε tbl).1.Metadata = g.Metadata ∧
      (g.validateCall ε tbl).1.Spec = g.Spec ∧
      ((g.validateCall ε tbl).1.validateCall ε tbl).2 = (g.validateCall ε tbl).2 ∧
      ((g.validateCall ε tbl).1.validateCall ε tbl).1 = g ∧
      (g.validate ε tbl = none →
        (g.validateCall ε tbl).2 = none ∧
          ((g.validateCall ε tbl).1.validateCall ε tbl) = (g, none))) ∧
    ((d.validateCall ε tbl).1.Kind = d.Kind ∧
      (d.validateCall ε tbl).1.Metadata = d.Metadata ∧
      (d.validateCall ε tbl).1.Spec = d.Spec ∧
      ((d.validateCall ε tbl).1.validateCall ε tbl).2 = (d.validateCall ε tbl).2 ∧
      ((d.validateCall ε tbl).1.validateCall ε tbl).1 = d ∧
      (d.validate ε tbl = none →
        (d.validateCall ε tbl).2 = none ∧
          ((d.validateCall ε tbl).1.validateCall ε tbl) = (d, none))) := by
  refine ⟨⟨rfl, rfl, rfl, rfl, rfl, ?_⟩, ⟨rfl, rfl, rfl, rfl, rfl, ?_⟩⟩
  · intro h
    simp [GlobalDatasource.validateCall, h]
  · intro h
    simp [Datasource.validateCall, h]

/-- C16, at a concrete input: validating a valid resource of each variant twice
succeeds both times and returns the resource unchanged. -/
theorem validate_pure_witness :
    ((promGlobal.validateCall String noTable).2 = none ∧
      ((promGlobal.validateCall String noTable).1.validateCall String noTable)
        = (promGlobal, none)) ∧
    ((promDatasource.validateCall String noTable).2 = none ∧
      ((promDatasource.validateCall String noTable).1.validateCall String noTable)
        = (promDatasource, none)) :=
  have h := validate_pure (ε := String) noTable promGlobal promDatasource
  ⟨h.1.2.2.2.2.2 (by decide), h.2.2.2.2.2.2 (by decide)⟩

/-- C17 (as stated, refuted). A project datasource and a global datasource with
the right kind and a spec with only the display set (default false, zero plugin)
are accepted by validation: the result is no error, not the empty-spec error. -/
theorem display_only_spec_accepted :
    (Datasource.validate String noTable
        { Kind := "Datasource", Metadata := 1, Spec := displayOnlySpec } = none ∧
      Datasource.validate String noTable
        { Kind := "Datasource", Metadata := 1, Spec := displayOnlySpec }
        ≠ some (.errorf "spec cannot be empty")) ∧
    (GlobalDatasource.validate String noTable
        { Kind := "GlobalDatasource", Metadata := 3, Spec := displayOnlySpec } = none ∧
      GlobalDatasource.validate String noTable
        { Kind := "GlobalDatasource", Metadata := 3, Spec := displayOnlySpec }
        ≠ some (.errorf "spec cannot be empty")) := by
  decide

/-- C17 (amended). A spec with only the display set (display present, default
false, zero plugin) is not the zero spec and validation does not consider it
empty: for both variants a resource with the right kind and such a spec is
accepted; the empty-spec error is returned exactly for the right kind with a
spec equal to the zero spec. -/
theorem display_only_spec_not_empty {M P δ σ ε : Type} [DecidableEq δ] [DecidableEq σ]
    (tbl : Nat → Bool) (x : δ) (mM : M) (mP : P)
    (g : GlobalDatasource M δ σ) (d : Datasource P δ σ) :
    GlobalDatasource.validate ε tbl
        { Kind := "GlobalDatasource", Metadata := mM,
          Spec := { Display := some x, Default := false,
                    Plugin := { Kind := "", Spec := (none : Option σ) } } } = none ∧
    Datasource.validate ε tbl
        { Kind := "Datasource", Metadata := mP,
          Spec := { Display := some x, Default := false,
                    Plugin := { Kind := "", Spec := (none : Option σ) } } } = none ∧
    (g.validate ε tbl = some (.errorf "spec cannot be empty") ↔
      g.Kind = "GlobalDatasource" ∧
        g.Spec = { Display := none, Default := false, Plugin := { Kind := "", Spec := none } }) ∧
    (d.validate ε tbl = some (.errorf "spec cannot be empty") ↔
      d.Kind = "Datasource" ∧
        d.Spec = { Display := none, Default := false, Plugin := { Kind := "", Spec := none } }) := by
  refine ⟨?_, ?_, GlobalDatasource_validate_empty_iff tbl g, Datasource_validate_empty_iff tbl d⟩
  · rw [GlobalDatasource_validate_eq_none]
    simp [DatasourceSpec.zero]
  · rw [Datasource_validate_eq_none]
    simp [DatasourceSpec.zero]

/-- C18. On success the temporary value becomes the committed value, for the four
decode entry points and every prior receiver value: if the structural decode
yields a temporary value that validation accepts, the entry point returns no
error and the receiver afterwards is the temporary value, whatever the receiver
held before. -/
theorem decode_success_commits {P M δ σ ε : Type} [Inhabited P] [Inhabited M]
    [DecidableEq δ] [DecidableEq σ] (tbl : Nat → Bool)
    (t : Datasource P δ σ) (u : GlobalDatasource M δ σ) :
    (t.validate ε tbl = none →
      (∀ (ju : Bytes → Datasource P δ σ → Datasource P δ σ × Option (GoError ε))
          (data : Bytes) (d0 : Datasource P δ σ),
          ju data Datasource.zero = (t, none) →
          Datasource.UnmarshalJSON tbl ju d0 data = (t, none)) ∧
      (∀ (um : Datasource P δ σ → Datasource P δ σ × Option (GoError ε))
          (d0 : Datasource P δ σ),
          um Datasource.zero = (t, none) →
          Datasource.UnmarshalYAML tbl d0 um = (t, none))) ∧
    (u.validate ε tbl = none →
      (∀ (ju : Bytes → GlobalDatasource M δ σ → GlobalDatasource M δ σ × Option (GoError ε))
          (data : Bytes) (g0 : GlobalDatasource M δ σ),
          ju data GlobalDatasource.zero = (u, none) →
          GlobalDatasource.UnmarshalJSON tbl ju g0 data = (u, none)) ∧
      (∀ (um : GlobalDatasource M δ σ → GlobalDatasource M δ σ × Option (GoError ε))
          (g0 : GlobalDatasource M δ σ),
          um GlobalDatasource.zero = (u, none) →
          GlobalDatasource.UnmarshalYAML tbl g0 um = (u, none))) := by
  refine ⟨fun ht => ⟨?_, ?_⟩, fun hu => ⟨?_, ?_⟩⟩
  · intro ju data d0 h
    rw [Datasource_UnmarshalJSON_decode_ok tbl ju d0 t data h, ht]
  · intro um d0 h
    rw [Datasource_UnmarshalYAML_decode_ok tbl um d0 t h, ht]
  · intro ju data g0 h
    rw [GlobalDatasource_UnmarshalJSON_decode_ok tbl ju g0 u data h, hu]
  · intro um g0 h
    rw [GlobalDatasource_UnmarshalYAML_decode_ok tbl um g0 u h, hu]

/-- C18, at concrete inputs: the same valid temporary value is committed into
two different prior receivers, through the four entry points. -/
theorem decode_success_commits_witness :
    (Datasource.UnmarshalJSON noTable (fun _ => yields promDatasource) priorDatasource [1]
        = (promDatasource, none) ∧
      Datasource.UnmarshalJSON noTable (fun _ => yields promDatasource) Datasource.zero [1]
        = (promDatasource, none)) ∧
    (Datasource.UnmarshalYAML noTable priorDatasource (yields promDatasource)
        = (promDatasource, none) ∧
      Datasource.UnmarshalYAML noTable lokiDatasource (yields promDatasource)
        = (promDatasource, none)) ∧
    (GlobalDatasource.UnmarshalJSON noTable (fun _ => yields promGlobal) priorGlobal [1]
        = (promGlobal, none) ∧
      GlobalDatasource.UnmarshalJSON noTable (fun _ => yields promGlobal)
          GlobalDatasource.zero [1]
        = (promGlobal, none)) ∧
    (GlobalDatasource.UnmarshalYAML noTable priorGlobal (yields promGlobal)
        = (promGlobal, none) ∧
      GlobalDatasource.UnmarshalYAML noTable GlobalDatasource.zero (yields promGlobal)
        = (promGlobal, none)) :=
  have h := decode_success_commits (ε := String) noTable promDatasource promGlobal
  ⟨⟨(h.1 (by decide)).1 (fun _ => yields promDatasource) [1] priorDatasource rfl,
    (h.1 (by decide)).1 (fun _ => yields promDatasource) [1] Datasource.zero rfl⟩,
   ⟨(h.1 (by decide)).2 (yields promDatasource) priorDatasource rfl,
    (h.1 (by decide)).2 (yields promDatasource) lokiDatasource rfl⟩,
   ⟨(h.2 (by decide)).1 (fun _ => yields promGlobal) [1] priorGlobal rfl,
    (h.2 (by decide)).1 (fun _ => yields promGlobal) [1] GlobalDatasource.zero rfl⟩,
   ⟨(h.2 (by decide)).2 (yields promGlobal) priorGlobal rfl,
    (h.2 (by decide)).2 (yields promGlobal) GlobalDatasource.zero rfl⟩⟩

/-- C19. Error precedence, for both variants: on a value whose kind differs from
the fixed tag, validation returns the invalid-kind error, which is not the
empty-spec error, whatever the spec and so also when the spec is the zero spec;
the empty-spec error is returned only when the kind is the fixed tag. -/
theorem validate_kind_error_first {M P δ σ ε : Type} [DecidableEq δ] [DecidableEq σ]
    (tbl : Nat → Bool) (g : GlobalDatasource M δ σ) (d : Datasource P δ σ) :
    (g.Kind ≠ "GlobalDatasource" → g.Spec = DatasourceSpec.zero →
      g.validate ε tbl
          = some (.errorf
              ("invalid kind: " ++ Quote tbl g.Kind ++ " for a GlobalDatasource type")) ∧
        g.validate ε tbl ≠ some (.errorf "spec cannot be empty")) ∧
    (g.validate ε tbl = some (.errorf "spec cannot be empty") → g.Kind = "GlobalDatasource") ∧
    (d.Kind ≠ "Datasource" → d.Spec = DatasourceSpec.zero →
      d.validate ε tbl
          = some (.errorf ("invalid kind: " ++ Quote tbl d.Kind ++ " for a Datasource type")) ∧
        d.validate ε tbl ≠ some (.errorf "spec cannot be empty")) ∧
    (d.validate ε tbl = some (.errorf "spec cannot be empty") → d.Kind = "Datasource") := by
  refine ⟨fun hk _ => ⟨GlobalDatasource_validate_wrong_kind tbl g hk, ?_⟩,
    fun h => ((GlobalDatasource_validate_empty_iff tbl g).1 h).1,
    fun hk _ => ⟨Datasource_validate_wrong_kind tbl d hk, ?_⟩,
    fun h => ((Datasource_validate_empty_iff tbl d).1 h).1⟩
  · intro h
    exact hk ((GlobalDatasource_validate_empty_iff tbl g).1 h).1
  · intro h
    exact hk ((Datasource_validate_empty_iff tbl d).1 h).1

/-- C19, at a concrete input: the kind `Dashboard` with the zero spec gives the
invalid-kind message on both variants. -/
theorem validate_kind_error_first_witness :
    GlobalDatasource.validate String noTable
        { Kind := "Dashboard", Metadata := 3,
          Spec := (DatasourceSpec.zero : DatasourceSpec String String) }
      = some (.errorf "invalid kind: \"Dashboard\" for a GlobalDatasource type") ∧
    Datasource.validate String noTable
        { Kind := "Dashboard", Metadata := 1,
          Spec := (DatasourceSpec.zero : DatasourceSpec String String) }
      = some (.errorf "invalid kind: \"Dashboard\" for a Datasource type") :=
  have h := validate_kind_error_first (ε := String) noTable
    ({ Kind := "Dashboard", Metadata := 3, Spec := DatasourceSpec.zero } :
      GlobalDatasource Nat String String)
    ({ Kind := "Dashboard", Metadata := 1, Spec := DatasourceSpec.zero } :
      Datasource Nat String String)
  have hq : Quote noTable "Dashboard" = "\"Dashboard\"" := by decide
  ⟨(h.1 (by decide) rfl).1.trans (by rw [hq]; rfl),
   (h.2.2.1 (by decide) rfl).1.trans (by rw [hq]; rfl)⟩

end Perses
